import Mathlib

/-!
# The JNI adapter of the embedded Reindexer binding (`BuiltinAdapter.cpp`)

A shallow embedding of `src/builtin-adapter/BuiltinAdapter.cpp`.

* Native memory is a map from addresses to bytes.
* C integers are mathematical integers: `uintptr_t`/`uint64_t` values are naturals below `2^64`,
  `jlong` values are integers in the signed 64-bit range, and every conversion between the two is
  written out (`toJlong`, `toUintptr`).
* A managed object that the adapter builds (`java.lang.Long`, `byte[]`, `ReindexerResponse`) is the
  value it holds; a Java `null` is `none`.
* The JNI functions that borrow managed memory, and the calls into the native engine, are recorded
  as events in a trace, in program order.
-/

namespace BuiltinAdapter

/-! ## Machine integers -/

/-- Conversion of an unsigned 64-bit value to `jlong` (two's complement). -/
def toJlong (u : Nat) : Int :=
  if u % 2 ^ 64 < 2 ^ 63 then ((u % 2 ^ 64 : Nat) : Int) else ((u % 2 ^ 64 : Nat) : Int) - 2 ^ 64

/-- Conversion `static_cast<uintptr_t>(jl)` / `static_cast<uint64_t>(jl)` of a `jlong`. -/
def toUintptr (jl : Int) : Nat :=
  (jl % 2 ^ 64).toNat

/-! ## Native memory -/

/-- Native memory: the byte stored at every address. An address is a natural number, the null
pointer is `0`. -/
abbrev Mem := Nat → Nat

/-- The bytes from `p` up to the first NUL byte, reading at most `fuel` bytes. -/
def cstrAux (m : Mem) : Nat → Nat → List Nat
  | _, 0 => []
  | p, fuel + 1 => if m p = 0 then [] else m p :: cstrAux m (p + 1) fuel

/-- The NUL-terminated text at `p`; the scan stays inside the 64-bit address space. -/
def cstr (m : Mem) (p : Nat) : List Nat :=
  cstrAux m p (2 ^ 64 - p)

/-- The `n` bytes at `p`. -/
def readBytes (m : Mem) (p : Nat) (n : Nat) : List Nat :=
  (List.range n).map fun i => m (p + i)

/-- Memory `m` with the bytes `bs` stored from address `p` on. -/
def writeBytes (m : Mem) (p : Nat) (bs : List Nat) : Mem :=
  fun a => if p ≤ a ∧ a < p + bs.length then bs.getD (a - p) 0 else m a

/-- The pointer `p` points at the NUL-terminated text `t`: it is not null, the bytes of `t`, none
of them NUL, lie at `p`, and a NUL byte follows them. -/
def PointsToText (m : Mem) (p : Nat) (t : List Nat) : Prop :=
  p ≠ 0 ∧ p + t.length < 2 ^ 64 ∧ (∀ i, i < t.length → m (p + i) = t.getD i 0 ∧ t.getD i 0 ≠ 0) ∧
    m (p + t.length) = 0

/-! ## The structures of the C binding (`reindexer_ctypes.h`) -/

/-- The record `reindexer_error`: `what` is a `const char *`, `code` an `int`. -/
structure reindexer_error where
  what : Nat
  code : Int
  deriving DecidableEq, Repr

/-- The record `reindexer_resbuffer`: `results_ptr` and `data` are `uintptr_t`, `len` is the byte
count of the buffer at `data`. -/
structure reindexer_resbuffer where
  results_ptr : Nat
  data : Nat
  len : Nat
  deriving DecidableEq, Repr

/-- The record `reindexer_ret`. -/
structure reindexer_ret where
  out : reindexer_resbuffer
  err_code : Int
  deriving DecidableEq, Repr

/-- The record `reindexer_tx_ret`: `tx_id` is a `uintptr_t`. -/
structure reindexer_tx_ret where
  tx_id : Nat
  err : reindexer_error
  deriving DecidableEq, Repr

/-! ## Managed values -/

/-- The managed objects the adapter puts into a response: a `java.lang.Long` or a `byte[]`. -/
inductive JObject where
  | long (v : Int)
  | bytes (b : List Nat)
  deriving DecidableEq, Repr

/-- The object `ReindexerResponse(int code, String errorMessage, Object[] arguments)`. A `null`
message or array element is `none`; a string is its sequence of bytes. -/
structure ReindexerResponse where
  code : Int
  errorMessage : Option (List Nat)
  arguments : List (Option JObject)
  deriving DecidableEq, Repr

/-! ## JNI functions that build managed values -/

/-- The JNI function `NewStringUTF`: a new string with the NUL-terminated text at `p`, and `null`
for a null pointer. -/
def NewStringUTF (m : Mem) (p : Nat) : Option (List Nat) :=
  if p = 0 then none else some (cstr m p)

/-- The JNI pair `NewByteArray(len)` and `SetByteArrayRegion(body, 0, len, data)`: a new array
holding a copy of the `len` bytes at `data`. -/
def NewByteArrayRegion (m : Mem) (data : Nat) (len : Nat) : JObject :=
  JObject.bytes (readBytes m data len)

/-- The helper `jlong_object`: boxes a `jlong` with `Long.valueOf`. -/
def jlong_object (jl : Int) : Option JObject :=
  some (JObject.long jl)

/-! ## The result envelope decoder: the three overloads of `j_res` -/

/-- The overload `j_res(JNIEnv*, reindexer_error)`. -/
def j_res_error (m : Mem) (error : reindexer_error) : ReindexerResponse :=
  { code := error.code, errorMessage := NewStringUTF m error.what, arguments := [] }

/-- The overload `j_res(JNIEnv*, reindexer_ret)`: the three locals start as `null` and are set in
one branch or the other of the test on `err_code`. -/
def j_res_ret (m : Mem) (ret : reindexer_ret) : ReindexerResponse :=
  let locals : Option (List Nat) × Option JObject × Option JObject :=
    if ret.err_code ≠ 0 then
      (NewStringUTF m ret.out.data, none, none)
    else
      (none, jlong_object (toJlong ret.out.results_ptr),
        some (NewByteArrayRegion m ret.out.data ret.out.len))
  let errorMessage := locals.1
  let resultsPtr := locals.2.1
  let body := locals.2.2
  { code := ret.err_code, errorMessage := errorMessage, arguments := [resultsPtr, body] }

/-- The overload `j_res(JNIEnv*, reindexer_tx_ret)`. -/
def j_res_tx (m : Mem) (ret : reindexer_tx_ret) : ReindexerResponse :=
  let locals : Option (List Nat) × Option JObject :=
    if ret.err.code ≠ 0 then
      (NewStringUTF m ret.err.what, none)
    else
      (none, jlong_object (toJlong ret.tx_id))
  let errorMessage := locals.1
  let txId := locals.2
  { code := ret.err.code, errorMessage := errorMessage, arguments := [txId] }

/-! ## Views handed to the native engine -/

/-- The record `reindexer_string`: a pointer and a byte count. -/
structure reindexer_string where
  p : Nat
  n : Nat
  deriving DecidableEq, Repr

/-- The record `reindexer_buffer`: a pointer and a byte count. -/
structure reindexer_buffer where
  data : Nat
  len : Nat
  deriving DecidableEq, Repr

/-- The record `reindexer_ctx_info`: `ctx_id` is a `uint64_t`, `exec_timeout` an `int64_t`. -/
structure reindexer_ctx_info where
  ctx_id : Nat
  exec_timeout : Int
  deriving DecidableEq, Repr

/-- The helper `rx_ctx`. -/
def rx_ctx (ctxId timeout : Int) : reindexer_ctx_info :=
  { ctx_id := toUintptr ctxId, exec_timeout := timeout }

/-- Modelled from the spec: the class `StorageOpts` of the engine's headers is not part of the
sources; it is the storage-options bundle of the three flags enabled, drop-on-format-error and
create-if-missing, all off when default-constructed. -/
structure StorageOpts where
  enabled : Bool := false
  dropOnFileFormatError : Bool := false
  createIfMissing : Bool := false
  deriving DecidableEq, Repr

/-- The setter `StorageOpts::Enabled`. -/
def StorageOpts.Enabled (o : StorageOpts) (value : Bool) : StorageOpts :=
  { o with enabled := value }

/-- The setter `StorageOpts::DropOnFileFormatError`. -/
def StorageOpts.DropOnFileFormatError (o : StorageOpts) (value : Bool) : StorageOpts :=
  { o with dropOnFileFormatError := value }

/-- The setter `StorageOpts::CreateIfMissing`. -/
def StorageOpts.CreateIfMissing (o : StorageOpts) (value : Bool) : StorageOpts :=
  { o with createIfMissing := value }

/-! ## Managed arguments -/

/-- A `jstring`: the identity of the managed object and its text in modified UTF-8. -/
structure JString where
  ref : Nat
  utf : List Nat
  deriving DecidableEq, Repr

/-- A `jbyteArray`: the identity of the managed object and its bytes. -/
structure JByteArray where
  ref : Nat
  elems : List Nat
  deriving DecidableEq, Repr

/-- A `jlongArray`: the identity of the managed object and its 64-bit elements. -/
structure JLongArray where
  ref : Nat
  elems : List Int
  deriving DecidableEq, Repr

/-! ## Calls into the native engine -/

/-- A call of a function of the engine's C binding, with the arguments the adapter passes. Handles
are listed as the `jlong` values the adapter holds. -/
inductive NativeCall where
  | init_reindexer
  | destroy_reindexer (rx : Int)
  | reindexer_connect (rx : Int) (dsn vers : reindexer_string)
  | reindexer_open_namespace (rx : Int) (nsName : reindexer_string) (opts : StorageOpts)
      (ctx : reindexer_ctx_info)
  | reindexer_close_namespace (rx : Int) (nsName : reindexer_string) (ctx : reindexer_ctx_info)
  | reindexer_drop_namespace (rx : Int) (nsName : reindexer_string) (ctx : reindexer_ctx_info)
  | reindexer_add_index (rx : Int) (nsName indexDefJson : reindexer_string)
      (ctx : reindexer_ctx_info)
  | reindexer_modify_item_packed (rx : Int) (args data : reindexer_buffer)
      (ctx : reindexer_ctx_info)
  | reindexer_modify_item_packed_tx (rx txId : Int) (args data : reindexer_buffer)
  | reindexer_start_transaction (rx : Int) (nsName : reindexer_string)
  | reindexer_commit_transaction (rx txId : Int) (ctx : reindexer_ctx_info)
  | reindexer_rollback_transaction (rx txId : Int)
  | reindexer_select_query (rx : Int) (data : reindexer_buffer) (asJson : Bool) (ptVersions : Nat)
      (ptVersionsCount : Nat) (ctx : reindexer_ctx_info)
  | reindexer_delete_query (rx : Int) (data : reindexer_buffer) (ctx : reindexer_ctx_info)
  | reindexer_delete_query_tx (rx txId : Int) (data : reindexer_buffer)
  | reindexer_update_query (rx : Int) (data : reindexer_buffer) (ctx : reindexer_ctx_info)
  | reindexer_update_query_tx (rx txId : Int) (data : reindexer_buffer)
  | reindexer_cptr2cjson (resultsPtr cPtr nsId : Int)
  | reindexer_free_cjson (buffer : reindexer_buffer)
  | reindexer_free_buffer (buffer : reindexer_resbuffer)
  | init_reindexer_server
  | destroy_reindexer_server (svc : Int)
  | start_reindexer_server (svc : Int) (config : reindexer_string)
  | stop_reindexer_server (svc : Int)
  | check_server_ready (svc : Int)
  | get_reindexer_instance (svc : Int) (dbName dbUser dbPass : reindexer_string)
  | reindexer_put_meta (rx : Int) (nsName metaKey metaData : reindexer_string)
      (ctx : reindexer_ctx_info)
  | reindexer_get_meta (rx : Int) (nsName metaKey : reindexer_string) (ctx : reindexer_ctx_info)
  deriving DecidableEq, Repr

/-- What a native call leaves behind: the memory after the call and the value it returns. Each
native function returns the field of its own return type; `inst` is the value stored through the
out-parameter of `get_reindexer_instance`, if it stores one. -/
structure NativeOut where
  mem : Mem
  err : reindexer_error
  ret : reindexer_ret
  tx : reindexer_tx_ret
  buf : reindexer_buffer
  handle : Nat
  ready : Bool
  inst : Option Nat

/-- The three return types that `j_res` is overloaded on. -/
inductive Shape where
  | status
  | data
  | transaction
  deriving DecidableEq, Repr

/-- Modelled from the spec: the header `reindexer_c.h` of the engine, which declares the return
type of each native function and so selects the overload of `j_res`, is not part of the sources.
The return type of each function is the one the call surface of the specification gives to the
operation: a data result for item modification, queries and `getMeta`, inside a transaction or
not, a transaction result for `beginTx`, and a plain status for the rest. -/
def returnShape : NativeCall → Shape
  | .reindexer_modify_item_packed .. => Shape.data
  | .reindexer_modify_item_packed_tx .. => Shape.data
  | .reindexer_select_query .. => Shape.data
  | .reindexer_delete_query .. => Shape.data
  | .reindexer_delete_query_tx .. => Shape.data
  | .reindexer_update_query .. => Shape.data
  | .reindexer_update_query_tx .. => Shape.data
  | .reindexer_get_meta .. => Shape.data
  | .reindexer_start_transaction .. => Shape.transaction
  | _ => Shape.status

/-! ## The trace of a bridged operation -/

/-- The three JNI borrows the adapter uses: `GetStringUTFChars`, `GetByteArrayElements` and
`GetLongArrayElements`, each with its `Release` counterpart. -/
inductive BorrowKind where
  | utfChars
  | byteElems
  | longElems
  deriving DecidableEq, Repr

/-- An observable step: a borrow of the managed object `obj` that yielded the pointer `p`, a
release naming `obj` and `p`, or a native call together with the memory it can read. -/
inductive Event where
  | get (k : BorrowKind) (obj : Nat) (p : Nat)
  | release (k : BorrowKind) (obj : Nat) (p : Nat)
  | native (c : NativeCall) (m : Mem)

/-- The state threaded through the adapter: native memory and the events so far. -/
structure World where
  mem : Mem
  trace : List Event

/-- The managed runtime: the pointer each borrow yields (by position in the trace and managed
object; `0` when the runtime cannot provide one) and the byte order of the platform. -/
structure JVM where
  pin : Nat → Nat → Nat
  bigEndian : Bool

/-- The native engine: the outcome of a call, given the events so far and the memory. -/
abbrev Engine := List Event → Mem → NativeCall → NativeOut

/-- Computations of the adapter. -/
abbrev Bridge := StateM World

/-! ## JNI functions that borrow managed memory -/

/-- Append an event to the trace. -/
def emit (e : Event) : Bridge Unit :=
  modify fun w => { w with trace := w.trace ++ [e] }

/-- The eight bytes of a `jlong` in memory, in the byte order of the platform. -/
def encodeLong (bigEndian : Bool) (v : Int) : List Nat :=
  let le := (List.range 8).map fun i => toUintptr v / 256 ^ i % 256
  if bigEndian then le.reverse else le

/-- The `int32_t` at `p`, in the byte order of the platform. -/
def readInt32 (bigEndian : Bool) (m : Mem) (p : Nat) : Int :=
  let bs := readBytes m p 4
  let le := if bigEndian then bs.reverse else bs
  let u : Nat := le.getD 0 0 % 256 + 256 * (le.getD 1 0 % 256) + 256 ^ 2 * (le.getD 2 0 % 256) +
    256 ^ 3 * (le.getD 3 0 % 256)
  if u < 2 ^ 31 then (u : Int) else (u : Int) - 2 ^ 32

/-- The borrow of the managed object `obj`: the runtime yields a pointer and, unless it is null,
the memory there holds `content`. -/
def borrow (jvm : JVM) (k : BorrowKind) (obj : Nat) (content : List Nat) : Bridge Nat := do
  let w ← get
  let p := jvm.pin w.trace.length obj
  set ({ mem := if p = 0 then w.mem else writeBytes w.mem p content,
         trace := w.trace ++ [Event.get k obj p] } : World)
  return p

/-- The JNI function `GetStringUTFChars`: the text of the string, NUL-terminated. -/
def GetStringUTFChars (jvm : JVM) (jstr : JString) : Bridge Nat :=
  borrow jvm BorrowKind.utfChars jstr.ref (jstr.utf ++ [0])

/-- The JNI function `GetStringUTFLength`. -/
def GetStringUTFLength (jstr : JString) : Nat :=
  jstr.utf.length

/-- The JNI function `ReleaseStringUTFChars`. -/
def ReleaseStringUTFChars (jstr : JString) (p : Nat) : Bridge Unit :=
  emit (Event.release BorrowKind.utfChars jstr.ref p)

/-- The JNI function `GetByteArrayElements`. -/
def GetByteArrayElements (jvm : JVM) (bytes : JByteArray) : Bridge Nat :=
  borrow jvm BorrowKind.byteElems bytes.ref bytes.elems

/-- The JNI function `ReleaseByteArrayElements` (the adapter always passes mode 0). -/
def ReleaseByteArrayElements (bytes : JByteArray) (p : Nat) : Bridge Unit :=
  emit (Event.release BorrowKind.byteElems bytes.ref p)

/-- The JNI function `GetLongArrayElements`: the elements, eight bytes each. -/
def GetLongArrayElements (jvm : JVM) (arr : JLongArray) : Bridge Nat :=
  borrow jvm BorrowKind.longElems arr.ref (arr.elems.map (encodeLong jvm.bigEndian)).flatten

/-- The JNI function `ReleaseLongArrayElements` (the adapter always passes mode 0). -/
def ReleaseLongArrayElements (arr : JLongArray) (p : Nat) : Bridge Unit :=
  emit (Event.release BorrowKind.longElems arr.ref p)

/-- The helper `rx_string`. -/
def rx_string (jvm : JVM) (jstr : JString) : Bridge reindexer_string := do
  let p ← GetStringUTFChars jvm jstr
  return { p := p, n := GetStringUTFLength jstr }

/-- The helper `rx_buffer`. -/
def rx_buffer (jvm : JVM) (bytes : JByteArray) : Bridge reindexer_buffer := do
  let data ← GetByteArrayElements jvm bytes
  return { data := data, len := bytes.elems.length }

/-- A call into the native engine: the call is recorded with the memory it can read, and the
engine's outcome replaces the memory. -/
def callNative (eng : Engine) (c : NativeCall) : Bridge NativeOut := do
  let w ← get
  let out := eng w.trace w.mem c
  set ({ mem := out.mem, trace := w.trace ++ [Event.native c w.mem] } : World)
  return out

/-- The decoder `j_res(env, reindexer_error)` on the current memory. -/
def j_res_errorM (error : reindexer_error) : Bridge ReindexerResponse := do
  return j_res_error (← get).mem error

/-- The decoder `j_res(env, reindexer_ret)` on the current memory. -/
def j_res_retM (ret : reindexer_ret) : Bridge ReindexerResponse := do
  return j_res_ret (← get).mem ret

/-- The decoder `j_res(env, reindexer_tx_ret)` on the current memory. -/
def j_res_txM (ret : reindexer_tx_ret) : Bridge ReindexerResponse := do
  return j_res_tx (← get).mem ret

/-- The expression `j_res(env, f(...))` for a native call `f(...)`: the call is made and its
return value decoded by the overload for the return type of `f`. -/
def j_res_call (eng : Engine) (c : NativeCall) : Bridge ReindexerResponse := do
  let out ← callNative eng c
  match returnShape c with
  | Shape.status => j_res_errorM out.err
  | Shape.data => j_res_retM out.ret
  | Shape.transaction => j_res_txM out.tx

/-! ## The native methods -/

/-- The native method `BuiltinAdapter.init`. -/
def Java_ru_rt_restream_reindexer_binding_builtin_BuiltinAdapter_init (eng : Engine) : Bridge Int := do
  return toJlong (← callNative eng NativeCall.init_reindexer).handle

/-- The native method `BuiltinAdapter.destroy`. -/
def Java_ru_rt_restream_reindexer_binding_builtin_BuiltinAdapter_destroy (eng : Engine) (rx : Int) : Bridge Unit := do
  let _ ← callNative eng (NativeCall.destroy_reindexer rx)

/-- The native method `BuiltinAdapter.connect`. -/
def Java_ru_rt_restream_reindexer_binding_builtin_BuiltinAdapter_connect (jvm : JVM) (eng : Engine) (rx : Int) (path version : JString) :
    Bridge ReindexerResponse := do
  let dsn ← rx_string jvm path
  let vers ← rx_string jvm version
  let error := (← callNative eng (NativeCall.reindexer_connect rx dsn vers)).err
  ReleaseStringUTFChars path dsn.p
  ReleaseStringUTFChars version vers.p
  j_res_errorM error

/-- The native method `BuiltinAdapter.openNamespace`. -/
def Java_ru_rt_restream_reindexer_binding_builtin_BuiltinAdapter_openNamespace (jvm : JVM) (eng : Engine) (rx ctxId timeout : Int)
    (namespaceName : JString) (enabled dropOnFileFormatError createIfMissing : Bool) :
    Bridge ReindexerResponse := do
  let nsName ← rx_string jvm namespaceName
  let opts := (((({} : StorageOpts).Enabled enabled).DropOnFileFormatError
    dropOnFileFormatError).CreateIfMissing createIfMissing)
  let res ← j_res_call eng
    (NativeCall.reindexer_open_namespace rx nsName opts (rx_ctx ctxId timeout))
  ReleaseStringUTFChars namespaceName nsName.p
  return res

/-- The native method `BuiltinAdapter.closeNamespace`. -/
def Java_ru_rt_restream_reindexer_binding_builtin_BuiltinAdapter_closeNamespace (jvm : JVM) (eng : Engine) (rx ctxId timeout : Int)
    (namespaceName : JString) : Bridge ReindexerResponse := do
  let nsName ← rx_string jvm namespaceName
  let res ← j_res_call eng (NativeCall.reindexer_close_namespace rx nsName (rx_ctx ctxId timeout))
  ReleaseStringUTFChars namespaceName nsName.p
  return res

/-- The native method `BuiltinAdapter.dropNamespace`. -/
def Java_ru_rt_restream_reindexer_binding_builtin_BuiltinAdapter_dropNamespace (jvm : JVM) (eng : Engine) (rx ctxId timeout : Int)
    (namespaceName : JString) : Bridge ReindexerResponse := do
  let nsName ← rx_string jvm namespaceName
  let res ← j_res_call eng (NativeCall.reindexer_drop_namespace rx nsName (rx_ctx ctxId timeout))
  ReleaseStringUTFChars namespaceName nsName.p
  return res

/-- The native method `BuiltinAdapter.addIndex`. -/
def Java_ru_rt_restream_reindexer_binding_builtin_BuiltinAdapter_addIndex (jvm : JVM) (eng : Engine) (rx ctxId timeout : Int)
    (namespaceName indexJson : JString) : Bridge ReindexerResponse := do
  let nsName ← rx_string jvm namespaceName
  let indexDefJson ← rx_string jvm indexJson
  let res ← j_res_call eng
    (NativeCall.reindexer_add_index rx nsName indexDefJson (rx_ctx ctxId timeout))
  ReleaseStringUTFChars namespaceName nsName.p
  ReleaseStringUTFChars indexJson indexDefJson.p
  return res

/-- The native method `BuiltinAdapter.modifyItem`. -/
def Java_ru_rt_restream_reindexer_binding_builtin_BuiltinAdapter_modifyItem (jvm : JVM) (eng : Engine) (rx ctxId timeout : Int)
    (args data : JByteArray) : Bridge ReindexerResponse := do
  let bufferArgs ← rx_buffer jvm args
  let bufferData ← rx_buffer jvm data
  let res ← j_res_call eng
    (NativeCall.reindexer_modify_item_packed rx bufferArgs bufferData (rx_ctx ctxId timeout))
  ReleaseByteArrayElements args bufferArgs.data
  ReleaseByteArrayElements data bufferData.data
  return res

/-- The native method `BuiltinAdapter.modifyItemTx`. -/
def Java_ru_rt_restream_reindexer_binding_builtin_BuiltinAdapter_modifyItemTx (jvm : JVM) (eng : Engine) (rx txId : Int)
    (args data : JByteArray) : Bridge ReindexerResponse := do
  let bufferArgs ← rx_buffer jvm args
  let bufferData ← rx_buffer jvm data
  let res ← j_res_call eng
    (NativeCall.reindexer_modify_item_packed_tx rx txId bufferArgs bufferData)
  ReleaseByteArrayElements args bufferArgs.data
  ReleaseByteArrayElements data bufferData.data
  return res

/-- The native method `BuiltinAdapter.beginTx`. -/
def Java_ru_rt_restream_reindexer_binding_builtin_BuiltinAdapter_beginTx (jvm : JVM) (eng : Engine) (rx : Int) (namespaceName : JString) :
    Bridge ReindexerResponse := do
  let nsName ← rx_string jvm namespaceName
  let res ← j_res_call eng (NativeCall.reindexer_start_transaction rx nsName)
  ReleaseStringUTFChars namespaceName nsName.p
  return res

/-- The native method `BuiltinAdapter.commitTx`. -/
def Java_ru_rt_restream_reindexer_binding_builtin_BuiltinAdapter_commitTx (eng : Engine) (rx txId ctxId timeout : Int) : Bridge ReindexerResponse := do
  j_res_call eng (NativeCall.reindexer_commit_transaction rx txId (rx_ctx ctxId timeout))

/-- The native method `BuiltinAdapter.rollbackTx`. -/
def Java_ru_rt_restream_reindexer_binding_builtin_BuiltinAdapter_rollbackTx (eng : Engine) (rx txId : Int) : Bridge ReindexerResponse := do
  j_res_call eng (NativeCall.reindexer_rollback_transaction rx txId)

/-- The native method `BuiltinAdapter.selectQuery`. -/
def Java_ru_rt_restream_reindexer_binding_builtin_BuiltinAdapter_selectQuery (jvm : JVM) (eng : Engine) (rx ctxId timeout : Int) (data : JByteArray)
    (versions : JLongArray) (asJson : Bool) : Bridge ReindexerResponse := do
  let ptVersions ← GetLongArrayElements jvm versions
  let ptVersionsCount := versions.elems.length
  let bufferData ← rx_buffer jvm data
  let res ← j_res_call eng
    (NativeCall.reindexer_select_query rx bufferData asJson ptVersions ptVersionsCount
      (rx_ctx ctxId timeout))
  ReleaseLongArrayElements versions ptVersions
  ReleaseByteArrayElements data bufferData.data
  return res

/-- The native method `BuiltinAdapter.deleteQuery`. -/
def Java_ru_rt_restream_reindexer_binding_builtin_BuiltinAdapter_deleteQuery (jvm : JVM) (eng : Engine) (rx ctxId timeout : Int) (data : JByteArray) :
    Bridge ReindexerResponse := do
  let bufferData ← rx_buffer jvm data
  let res ← j_res_call eng (NativeCall.reindexer_delete_query rx bufferData (rx_ctx ctxId timeout))
  ReleaseByteArrayElements data bufferData.data
  return res

/-- The native method `BuiltinAdapter.deleteQueryTx`. -/
def Java_ru_rt_restream_reindexer_binding_builtin_BuiltinAdapter_deleteQueryTx (jvm : JVM) (eng : Engine) (rx txId : Int) (data : JByteArray) :
    Bridge ReindexerResponse := do
  let bufferData ← rx_buffer jvm data
  let res ← j_res_call eng (NativeCall.reindexer_delete_query_tx rx txId bufferData)
  ReleaseByteArrayElements data bufferData.data
  return res

/-- The native method `BuiltinAdapter.updateQuery`. -/
def Java_ru_rt_restream_reindexer_binding_builtin_BuiltinAdapter_updateQuery (jvm : JVM) (eng : Engine) (rx ctxId timeout : Int) (data : JByteArray) :
    Bridge ReindexerResponse := do
  let bufferData ← rx_buffer jvm data
  let res ← j_res_call eng (NativeCall.reindexer_update_query rx bufferData (rx_ctx ctxId timeout))
  ReleaseByteArrayElements data bufferData.data
  return res

/-- The native method `BuiltinAdapter.updateQueryTx`. -/
def Java_ru_rt_restream_reindexer_binding_builtin_BuiltinAdapter_updateQueryTx (jvm : JVM) (eng : Engine) (rx txId : Int) (data : JByteArray) :
    Bridge ReindexerResponse := do
  let bufferData ← rx_buffer jvm data
  let res ← j_res_call eng (NativeCall.reindexer_update_query_tx rx txId bufferData)
  ReleaseByteArrayElements data bufferData.data
  return res

/-- The native method `NativeUtils.getBytes`. -/
def Java_ru_rt_restream_reindexer_util_NativeUtils_getBytes (eng : Engine) (resultsPtr cPtr nsId : Int) : Bridge JObject := do
  let buffer := (← callNative eng (NativeCall.reindexer_cptr2cjson resultsPtr cPtr nsId)).buf
  let result := NewByteArrayRegion (← get).mem buffer.data buffer.len
  let _ ← callNative eng (NativeCall.reindexer_free_cjson buffer)
  return result

/-- The native method `NativeUtils.freeNativeBuffer`. -/
def Java_ru_rt_restream_reindexer_util_NativeUtils_freeNativeBuffer (eng : Engine) (resultsPtr : Int) : Bridge Unit := do
  let _ ← callNative eng
    (NativeCall.reindexer_free_buffer { results_ptr := toUintptr resultsPtr, data := 0, len := 0 })

/-- The native method `BuiltinAdapter.initServer`. -/
def Java_ru_rt_restream_reindexer_binding_builtin_BuiltinAdapter_initServer (eng : Engine) : Bridge Int := do
  return toJlong (← callNative eng NativeCall.init_reindexer_server).handle

/-- The native method `BuiltinAdapter.destroyServer`. -/
def Java_ru_rt_restream_reindexer_binding_builtin_BuiltinAdapter_destroyServer (eng : Engine) (svc : Int) : Bridge Unit := do
  let _ ← callNative eng (NativeCall.destroy_reindexer_server svc)

/-- The native method `BuiltinAdapter.startServer`. -/
def Java_ru_rt_restream_reindexer_binding_builtin_BuiltinAdapter_startServer (jvm : JVM) (eng : Engine) (svc : Int) (yamlConfig : JString) :
    Bridge ReindexerResponse := do
  let config ← rx_string jvm yamlConfig
  let res ← j_res_call eng (NativeCall.start_reindexer_server svc config)
  ReleaseStringUTFChars yamlConfig config.p
  return res

/-- The native method `BuiltinAdapter.stopServer`. -/
def Java_ru_rt_restream_reindexer_binding_builtin_BuiltinAdapter_stopServer (eng : Engine) (svc : Int) : Bridge ReindexerResponse := do
  j_res_call eng (NativeCall.stop_reindexer_server svc)

/-- The native method `BuiltinAdapter.isServerReady`. -/
def Java_ru_rt_restream_reindexer_binding_builtin_BuiltinAdapter_isServerReady (eng : Engine) (svc : Int) : Bridge Bool := do
  return (← callNative eng (NativeCall.check_server_ready svc)).ready

/-- The native method `BuiltinAdapter.getInstance`. The local `rx` starts at 0 and holds what the
native call stored through `&rx`, if anything. -/
def Java_ru_rt_restream_reindexer_binding_builtin_BuiltinAdapter_getInstance (jvm : JVM) (eng : Engine) (svc : Int) (database user password : JString) :
    Bridge Int := do
  let rx0 : Nat := 0
  let dbName ← rx_string jvm database
  let dbUser ← rx_string jvm user
  let dbPass ← rx_string jvm password
  let rx := (← callNative eng
    (NativeCall.get_reindexer_instance svc dbName dbUser dbPass)).inst.getD rx0
  ReleaseStringUTFChars database dbName.p
  ReleaseStringUTFChars user dbUser.p
  ReleaseStringUTFChars password dbPass.p
  return toJlong rx

/-- The native method `BuiltinAdapter.putMeta`. -/
def Java_ru_rt_restream_reindexer_binding_builtin_BuiltinAdapter_putMeta (jvm : JVM) (eng : Engine) (rx ctxId timeout : Int)
    (namespaceName key data : JString) : Bridge Unit := do
  let nsName ← rx_string jvm namespaceName
  let metaKey ← rx_string jvm key
  let metaData ← rx_string jvm data
  let _ ← callNative eng
    (NativeCall.reindexer_put_meta rx nsName metaKey metaData (rx_ctx ctxId timeout))
  ReleaseStringUTFChars namespaceName nsName.p
  ReleaseStringUTFChars key metaKey.p
  ReleaseStringUTFChars data metaData.p

/-- The native method `BuiltinAdapter.getMeta`. -/
def Java_ru_rt_restream_reindexer_binding_builtin_BuiltinAdapter_getMeta (jvm : JVM) (eng : Engine) (rx ctxId timeout : Int)
    (namespaceName key : JString) : Bridge ReindexerResponse := do
  let nsName ← rx_string jvm namespaceName
  let metaKey ← rx_string jvm key
  let res ← j_res_call eng (NativeCall.reindexer_get_meta rx nsName metaKey (rx_ctx ctxId timeout))
  ReleaseStringUTFChars namespaceName nsName.p
  ReleaseStringUTFChars key metaKey.p
  return res

/-! ## The call surface -/

/-- A value returned to the managed caller. -/
inductive JValue where
  | void
  | long (v : Int)
  | bool (b : Bool)
  | object (o : JObject)
  | response (r : ReindexerResponse)
  deriving DecidableEq, Repr

/-- A call of one of the native methods, with its managed arguments. -/
inductive Op where
  | init
  | destroy (rx : Int)
  | connect (rx : Int) (path version : JString)
  | openNamespace (rx ctxId timeout : Int) (namespaceName : JString)
      (enabled dropOnFileFormatError createIfMissing : Bool)
  | closeNamespace (rx ctxId timeout : Int) (namespaceName : JString)
  | dropNamespace (rx ctxId timeout : Int) (namespaceName : JString)
  | addIndex (rx ctxId timeout : Int) (namespaceName indexJson : JString)
  | modifyItem (rx ctxId timeout : Int) (args data : JByteArray)
  | modifyItemTx (rx txId : Int) (args data : JByteArray)
  | beginTx (rx : Int) (namespaceName : JString)
  | commitTx (rx txId ctxId timeout : Int)
  | rollbackTx (rx txId : Int)
  | selectQuery (rx ctxId timeout : Int) (data : JByteArray) (versions : JLongArray)
      (asJson : Bool)
  | deleteQuery (rx ctxId timeout : Int) (data : JByteArray)
  | deleteQueryTx (rx txId : Int) (data : JByteArray)
  | updateQuery (rx ctxId timeout : Int) (data : JByteArray)
  | updateQueryTx (rx txId : Int) (data : JByteArray)
  | getBytes (resultsPtr cPtr nsId : Int)
  | freeNativeBuffer (resultsPtr : Int)
  | initServer
  | destroyServer (svc : Int)
  | startServer (svc : Int) (yamlConfig : JString)
  | stopServer (svc : Int)
  | isServerReady (svc : Int)
  | getInstance (svc : Int) (database user password : JString)
  | putMeta (rx ctxId timeout : Int) (namespaceName key data : JString)
  | getMeta (rx ctxId timeout : Int) (namespaceName key : JString)
  deriving DecidableEq, Repr

/-- The managed runtime's dispatch of a native method call to its implementation. -/
def dispatch (jvm : JVM) (eng : Engine) : Op → Bridge JValue
  | .init => JValue.long <$> Java_ru_rt_restream_reindexer_binding_builtin_BuiltinAdapter_init eng
  | .destroy rx => (fun _ => JValue.void) <$> Java_ru_rt_restream_reindexer_binding_builtin_BuiltinAdapter_destroy eng rx
  | .connect rx path version => JValue.response <$> Java_ru_rt_restream_reindexer_binding_builtin_BuiltinAdapter_connect jvm eng rx path version
  | .openNamespace rx ctxId timeout namespaceName enabled dropOnFileFormatError createIfMissing =>
    JValue.response <$> Java_ru_rt_restream_reindexer_binding_builtin_BuiltinAdapter_openNamespace jvm eng rx ctxId timeout namespaceName enabled
      dropOnFileFormatError createIfMissing
  | .closeNamespace rx ctxId timeout namespaceName =>
    JValue.response <$> Java_ru_rt_restream_reindexer_binding_builtin_BuiltinAdapter_closeNamespace jvm eng rx ctxId timeout namespaceName
  | .dropNamespace rx ctxId timeout namespaceName =>
    JValue.response <$> Java_ru_rt_restream_reindexer_binding_builtin_BuiltinAdapter_dropNamespace jvm eng rx ctxId timeout namespaceName
  | .addIndex rx ctxId timeout namespaceName indexJson =>
    JValue.response <$> Java_ru_rt_restream_reindexer_binding_builtin_BuiltinAdapter_addIndex jvm eng rx ctxId timeout namespaceName indexJson
  | .modifyItem rx ctxId timeout args data =>
    JValue.response <$> Java_ru_rt_restream_reindexer_binding_builtin_BuiltinAdapter_modifyItem jvm eng rx ctxId timeout args data
  | .modifyItemTx rx txId args data =>
    JValue.response <$> Java_ru_rt_restream_reindexer_binding_builtin_BuiltinAdapter_modifyItemTx jvm eng rx txId args data
  | .beginTx rx namespaceName => JValue.response <$> Java_ru_rt_restream_reindexer_binding_builtin_BuiltinAdapter_beginTx jvm eng rx namespaceName
  | .commitTx rx txId ctxId timeout => JValue.response <$> Java_ru_rt_restream_reindexer_binding_builtin_BuiltinAdapter_commitTx eng rx txId ctxId timeout
  | .rollbackTx rx txId => JValue.response <$> Java_ru_rt_restream_reindexer_binding_builtin_BuiltinAdapter_rollbackTx eng rx txId
  | .selectQuery rx ctxId timeout data versions asJson =>
    JValue.response <$> Java_ru_rt_restream_reindexer_binding_builtin_BuiltinAdapter_selectQuery jvm eng rx ctxId timeout data versions asJson
  | .deleteQuery rx ctxId timeout data =>
    JValue.response <$> Java_ru_rt_restream_reindexer_binding_builtin_BuiltinAdapter_deleteQuery jvm eng rx ctxId timeout data
  | .deleteQueryTx rx txId data => JValue.response <$> Java_ru_rt_restream_reindexer_binding_builtin_BuiltinAdapter_deleteQueryTx jvm eng rx txId data
  | .updateQuery rx ctxId timeout data =>
    JValue.response <$> Java_ru_rt_restream_reindexer_binding_builtin_BuiltinAdapter_updateQuery jvm eng rx ctxId timeout data
  | .updateQueryTx rx txId data => JValue.response <$> Java_ru_rt_restream_reindexer_binding_builtin_BuiltinAdapter_updateQueryTx jvm eng rx txId data
  | .getBytes resultsPtr cPtr nsId => JValue.object <$> Java_ru_rt_restream_reindexer_util_NativeUtils_getBytes eng resultsPtr cPtr nsId
  | .freeNativeBuffer resultsPtr => (fun _ => JValue.void) <$> Java_ru_rt_restream_reindexer_util_NativeUtils_freeNativeBuffer eng resultsPtr
  | .initServer => JValue.long <$> Java_ru_rt_restream_reindexer_binding_builtin_BuiltinAdapter_initServer eng
  | .destroyServer svc => (fun _ => JValue.void) <$> Java_ru_rt_restream_reindexer_binding_builtin_BuiltinAdapter_destroyServer eng svc
  | .startServer svc yamlConfig => JValue.response <$> Java_ru_rt_restream_reindexer_binding_builtin_BuiltinAdapter_startServer jvm eng svc yamlConfig
  | .stopServer svc => JValue.response <$> Java_ru_rt_restream_reindexer_binding_builtin_BuiltinAdapter_stopServer eng svc
  | .isServerReady svc => JValue.bool <$> Java_ru_rt_restream_reindexer_binding_builtin_BuiltinAdapter_isServerReady eng svc
  | .getInstance svc database user password =>
    JValue.long <$> Java_ru_rt_restream_reindexer_binding_builtin_BuiltinAdapter_getInstance jvm eng svc database user password
  | .putMeta rx ctxId timeout namespaceName key data =>
    (fun _ => JValue.void) <$> Java_ru_rt_restream_reindexer_binding_builtin_BuiltinAdapter_putMeta jvm eng rx ctxId timeout namespaceName key data
  | .getMeta rx ctxId timeout namespaceName key =>
    JValue.response <$> Java_ru_rt_restream_reindexer_binding_builtin_BuiltinAdapter_getMeta jvm eng rx ctxId timeout namespaceName key

/-- The events one call adds to the trace. -/
def opTrace (jvm : JVM) (eng : Engine) (op : Op) (w : World) : List Event :=
  ((dispatch jvm eng op).run w).2.trace.drop w.trace.length

/-- The value one call returns. -/
def opResult (jvm : JVM) (eng : Engine) (op : Op) (w : World) : JValue :=
  ((dispatch jvm eng op).run w).1

/-- A sequence of calls, in order; the values they return. -/
def runAll (jvm : JVM) (eng : Engine) : List Op → Bridge (List JValue)
  | [] => pure []
  | op :: ops => do
    let v ← dispatch jvm eng op
    let vs ← runAll jvm eng ops
    return v :: vs

/-- The events a sequence of calls adds to the trace. -/
def seqTrace (jvm : JVM) (eng : Engine) (ops : List Op) (w : World) : List Event :=
  ((runAll jvm eng ops).run w).2.trace.drop w.trace.length

/-! ## Reading a trace -/

/-- The borrows of a trace, in order: kind, managed object and pointer. -/
def getsOf : List Event → List (BorrowKind × Nat × Nat)
  | [] => []
  | Event.get k obj p :: es => (k, obj, p) :: getsOf es
  | _ :: es => getsOf es

/-- The releases of a trace, in order: kind, managed object and pointer. -/
def releasesOf : List Event → List (BorrowKind × Nat × Nat)
  | [] => []
  | Event.release k obj p :: es => (k, obj, p) :: releasesOf es
  | _ :: es => releasesOf es

/-- The native calls of a trace, in order. -/
def nativesOf : List Event → List NativeCall
  | [] => []
  | Event.native c _ :: es => c :: nativesOf es
  | _ :: es => nativesOf es

/-- The native-call events of a trace, in order. -/
def nativeEventsOf : List Event → List Event
  | [] => []
  | Event.native c m :: es => Event.native c m :: nativeEventsOf es
  | _ :: es => nativeEventsOf es

/-- The string, byte-array and version-array arguments of a call, in the order the adapter
borrows them. -/
def Op.managedArgs : Op → List (BorrowKind × Nat)
  | .connect _ path version => [(.utfChars, path.ref), (.utfChars, version.ref)]
  | .openNamespace _ _ _ namespaceName _ _ _ => [(.utfChars, namespaceName.ref)]
  | .closeNamespace _ _ _ namespaceName => [(.utfChars, namespaceName.ref)]
  | .dropNamespace _ _ _ namespaceName => [(.utfChars, namespaceName.ref)]
  | .addIndex _ _ _ namespaceName indexJson =>
    [(.utfChars, namespaceName.ref), (.utfChars, indexJson.ref)]
  | .modifyItem _ _ _ args data => [(.byteElems, args.ref), (.byteElems, data.ref)]
  | .modifyItemTx _ _ args data => [(.byteElems, args.ref), (.byteElems, data.ref)]
  | .beginTx _ namespaceName => [(.utfChars, namespaceName.ref)]
  | .selectQuery _ _ _ data versions _ => [(.longElems, versions.ref), (.byteElems, data.ref)]
  | .deleteQuery _ _ _ data => [(.byteElems, data.ref)]
  | .deleteQueryTx _ _ data => [(.byteElems, data.ref)]
  | .updateQuery _ _ _ data => [(.byteElems, data.ref)]
  | .updateQueryTx _ _ data => [(.byteElems, data.ref)]
  | .startServer _ yamlConfig => [(.utfChars, yamlConfig.ref)]
  | .getInstance _ database user password =>
    [(.utfChars, database.ref), (.utfChars, user.ref), (.utfChars, password.ref)]
  | .putMeta _ _ _ namespaceName key data =>
    [(.utfChars, namespaceName.ref), (.utfChars, key.ref), (.utfChars, data.ref)]
  | .getMeta _ _ _ namespaceName key => [(.utfChars, namespaceName.ref), (.utfChars, key.ref)]
  | _ => []

/-! ## Reading results and native calls -/

/-- The native outcome carries a zero error code, whichever return type the call has. -/
def NativeOut.IsOk (out : NativeOut) : Prop :=
  out.err.code = 0 ∧ out.ret.err_code = 0 ∧ out.tx.err.code = 0

/-- The native outcome carries a nonzero error code, whichever return type the call has. -/
def NativeOut.IsFailure (out : NativeOut) : Prop :=
  out.err.code ≠ 0 ∧ out.ret.err_code ≠ 0 ∧ out.tx.err.code ≠ 0

/-- The error code of a returned value, when the value is a `ReindexerResponse`. -/
def JValue.code? : JValue → Option Int
  | JValue.response r => some r.code
  | _ => none

/-- The native methods declared to return a `jobject`, the `ReindexerResponse`. -/
def Op.returnsResponse : Op → Bool
  | .connect .. => true
  | .openNamespace .. => true
  | .closeNamespace .. => true
  | .dropNamespace .. => true
  | .addIndex .. => true
  | .modifyItem .. => true
  | .modifyItemTx .. => true
  | .beginTx .. => true
  | .commitTx .. => true
  | .rollbackTx .. => true
  | .selectQuery .. => true
  | .deleteQuery .. => true
  | .deleteQueryTx .. => true
  | .updateQuery .. => true
  | .updateQueryTx .. => true
  | .startServer .. => true
  | .stopServer .. => true
  | .getMeta .. => true
  | _ => false

/-- The pointers of the views of managed memory passed in a native call, in the order the
adapter borrows them. -/
def NativeCall.viewPtrs : NativeCall → List Nat
  | .reindexer_connect _ dsn vers => [dsn.p, vers.p]
  | .reindexer_open_namespace _ nsName _ _ => [nsName.p]
  | .reindexer_close_namespace _ nsName _ => [nsName.p]
  | .reindexer_drop_namespace _ nsName _ => [nsName.p]
  | .reindexer_add_index _ nsName indexDefJson _ => [nsName.p, indexDefJson.p]
  | .reindexer_modify_item_packed _ args data _ => [args.data, data.data]
  | .reindexer_modify_item_packed_tx _ _ args data => [args.data, data.data]
  | .reindexer_start_transaction _ nsName => [nsName.p]
  | .reindexer_select_query _ data _ ptVersions _ _ => [ptVersions, data.data]
  | .reindexer_delete_query _ data _ => [data.data]
  | .reindexer_delete_query_tx _ _ data => [data.data]
  | .reindexer_update_query _ data _ => [data.data]
  | .reindexer_update_query_tx _ _ data => [data.data]
  | .start_reindexer_server _ config => [config.p]
  | .get_reindexer_instance _ dbName dbUser dbPass => [dbName.p, dbUser.p, dbPass.p]
  | .reindexer_put_meta _ nsName metaKey metaData _ => [nsName.p, metaKey.p, metaData.p]
  | .reindexer_get_meta _ nsName metaKey _ => [nsName.p, metaKey.p]
  | _ => []

/-- The byte counts (for the version array, the element count) of the views of managed memory
passed in a native call, in the order the adapter borrows them. -/
def NativeCall.viewLens : NativeCall → List Nat
  | .reindexer_connect _ dsn vers => [dsn.n, vers.n]
  | .reindexer_open_namespace _ nsName _ _ => [nsName.n]
  | .reindexer_close_namespace _ nsName _ => [nsName.n]
  | .reindexer_drop_namespace _ nsName _ => [nsName.n]
  | .reindexer_add_index _ nsName indexDefJson _ => [nsName.n, indexDefJson.n]
  | .reindexer_modify_item_packed _ args data _ => [args.len, data.len]
  | .reindexer_modify_item_packed_tx _ _ args data => [args.len, data.len]
  | .reindexer_start_transaction _ nsName => [nsName.n]
  | .reindexer_select_query _ data _ _ ptVersionsCount _ => [ptVersionsCount, data.len]
  | .reindexer_delete_query _ data _ => [data.len]
  | .reindexer_delete_query_tx _ _ data => [data.len]
  | .reindexer_update_query _ data _ => [data.len]
  | .reindexer_update_query_tx _ _ data => [data.len]
  | .start_reindexer_server _ config => [config.n]
  | .get_reindexer_instance _ dbName dbUser dbPass => [dbName.n, dbUser.n, dbPass.n]
  | .reindexer_put_meta _ nsName metaKey metaData _ => [nsName.n, metaKey.n, metaData.n]
  | .reindexer_get_meta _ nsName metaKey _ => [nsName.n, metaKey.n]
  | _ => []

/-- The lengths of the string, byte-array and version-array arguments of a call, in the order
the adapter borrows them: bytes of text, bytes of an array, elements of the version array. -/
def Op.managedLens : Op → List Nat
  | .connect _ path version => [path.utf.length, version.utf.length]
  | .openNamespace _ _ _ namespaceName _ _ _ => [namespaceName.utf.length]
  | .closeNamespace _ _ _ namespaceName => [namespaceName.utf.length]
  | .dropNamespace _ _ _ namespaceName => [namespaceName.utf.length]
  | .addIndex _ _ _ namespaceName indexJson =>
    [namespaceName.utf.length, indexJson.utf.length]
  | .modifyItem _ _ _ args data => [args.elems.length, data.elems.length]
  | .modifyItemTx _ _ args data => [args.elems.length, data.elems.length]
  | .beginTx _ namespaceName => [namespaceName.utf.length]
  | .selectQuery _ _ _ data versions _ => [versions.elems.length, data.elems.length]
  | .deleteQuery _ _ _ data => [data.elems.length]
  | .deleteQueryTx _ _ data => [data.elems.length]
  | .updateQuery _ _ _ data => [data.elems.length]
  | .updateQueryTx _ _ data => [data.elems.length]
  | .startServer _ yamlConfig => [yamlConfig.utf.length]
  | .getInstance _ database user password =>
    [database.utf.length, user.utf.length, password.utf.length]
  | .putMeta _ _ _ namespaceName key data =>
    [namespaceName.utf.length, key.utf.length, data.utf.length]
  | .getMeta _ _ _ namespaceName key => [namespaceName.utf.length, key.utf.length]
  | _ => []

/-- The error code a native outcome carries in the return value of the given type. -/
def NativeOut.code (out : NativeOut) : Shape → Int
  | Shape.status => out.err.code
  | Shape.data => out.ret.err_code
  | Shape.transaction => out.tx.err.code

/-- The response that decodes a native outcome of the given return type: the overload of `j_res`
for that type, on the memory the call left behind. -/
def decodeOut (s : Shape) (out : NativeOut) : ReindexerResponse :=
  match s with
  | Shape.status => j_res_error out.mem out.err
  | Shape.data => j_res_ret out.mem out.ret
  | Shape.transaction => j_res_tx out.mem out.tx

/-! ## A model of the engine's meta store -/

/-- The bytes a native function reads through a `reindexer_string`. -/
def readView (m : Mem) (s : reindexer_string) : List Nat :=
  readBytes m s.p s.n

/-- The value the meta store holds for a connection, namespace and key after the calls of a
trace: the data of the latest `reindexer_put_meta` call made for them, read through the views of
that call in the memory of that call. -/
def metaLookup (key : Int × List Nat × List Nat) : List Event → Option (List Nat)
  | [] => none
  | Event.native (NativeCall.reindexer_put_meta rx nsName metaKey metaData _) m :: es =>
    match metaLookup key es with
    | some v => some v
    | none =>
      if (rx, readView m nsName, readView m metaKey) = key then some (readView m metaData)
      else none
  | _ :: es => metaLookup key es

/-- The outcome of a native call that succeeds and returns nothing: memory as it is, every error
code zero, no result set, no payload. -/
def okOut (m : Mem) : NativeOut :=
  { mem := m, err := ⟨0, 0⟩, ret := ⟨⟨0, 0, 0⟩, 0⟩, tx := ⟨0, ⟨0, 0⟩⟩, buf := ⟨0, 0⟩, handle := 0,
    ready := false, inst := none }

/-- Modelled from the spec: the meta store of the native engine, which is not part of the
sources. `reindexer_put_meta` stores the value under the connection, namespace and key and
succeeds; `reindexer_get_meta` returns a data result whose payload is the value stored last under
the connection, namespace and key, placed by the engine at the address `addr`, and a failure when
nothing is stored there. Every other call succeeds and returns nothing. -/
def metaEngine (addr : Nat) : Engine :=
  fun tr m c =>
    match c with
    | NativeCall.reindexer_get_meta rx nsName metaKey _ =>
      match metaLookup (rx, readView m nsName, readView m metaKey) tr with
      | some v => { okOut (writeBytes m addr v) with ret := ⟨⟨0, addr, v.length⟩, 0⟩ }
      | none => { okOut m with ret := ⟨⟨0, 0, 0⟩, 13⟩ }
    | _ => okOut m

/-- The `n` bytes at `p` and the `k` bytes at `q` do not overlap. -/
def Apart (p n q k : Nat) : Prop :=
  p + n ≤ q ∨ q + k ≤ p

/-! ## Example data -/

/-- A small memory: the text "err" at address 16, zero elsewhere. -/
def memErr : Mem :=
  fun a => if a = 16 then 101 else if a = 17 then 114 else if a = 18 then 114 else 0

/-- A runtime for examples: little-endian, the borrow at position `k` of the trace yields the
pointer `4096 + 256 * k`. -/
def jvmLE : JVM :=
  { pin := fun k _ => 4096 + 256 * k, bigEndian := false }

/-- The same runtime on a big-endian platform. -/
def jvmBE : JVM :=
  { pin := fun k _ => 4096 + 256 * k, bigEndian := true }

/-- An engine for examples: every call succeeds, `reindexer_start_transaction` returns the
transaction handle 77, data results carry the result-set handle 4096 and an empty payload, and
`reindexer_cptr2cjson` returns the three bytes at address 16. Memory is left as it is. -/
def engOk : Engine :=
  fun _ m _ =>
    { mem := m, err := ⟨0, 0⟩, ret := ⟨⟨4096, 0, 0⟩, 0⟩, tx := ⟨77, ⟨0, 0⟩⟩, buf := ⟨16, 3⟩,
      handle := 1, ready := true, inst := some 1 }

/-- An engine for examples: every call fails with the code 13 and the message "err" at address
16, and `get_reindexer_instance` stores nothing. Memory is left as it is. -/
def engFail : Engine :=
  fun _ m _ =>
    { mem := m, err := ⟨16, 13⟩, ret := ⟨⟨0, 16, 0⟩, 13⟩, tx := ⟨0, ⟨16, 13⟩⟩, buf := ⟨0, 0⟩,
      handle := 0, ready := false, inst := none }

/-- An engine for examples: as `engOk`, but `get_reindexer_instance` stores the handle `2^63`. -/
def engHigh : Engine :=
  fun tr m c => { engOk tr m c with inst := some (2 ^ 63) }

/-- A runtime for examples in which the borrow at position 1 of the trace yields no pointer. -/
def jvmSecondFails : JVM :=
  { pin := fun k _ => if k = 1 then 0 else 4096 + 256 * k, bigEndian := false }

/-- An initial state for examples: the memory `memErr` and an empty trace. -/
def world0 : World :=
  { mem := memErr, trace := [] }

/-- The `int32_t` values the engine reads through `pt_versions` in a `reindexer_select_query`
call: `pt_versions_count` values, four bytes apart, in the memory of the call. -/
def versionsRead (bigEndian : Bool) : Event → List Int
  | Event.native (NativeCall.reindexer_select_query _ _ _ ptVersions ptVersionsCount _) m =>
    (List.range ptVersionsCount).map fun i => readInt32 bigEndian m (ptVersions + 4 * i)
  | _ => []

/-! ## Lemmas on memory and machine integers -/

theorem cstrAux_of_text (m : Mem) :
    ∀ (t : List Nat) (p fuel : Nat),
      (∀ i, i < t.length → m (p + i) = t.getD i 0 ∧ t.getD i 0 ≠ 0) →
      m (p + t.length) = 0 → t.length < fuel → cstrAux m p fuel = t := by
  intro t
  induction t with
  | nil =>
    intro p fuel _ hnul hfuel
    obtain ⟨k, rfl⟩ : ∃ k, fuel = k + 1 := ⟨fuel - 1, by simp at hfuel; omega⟩
    simp only [List.length_nil, Nat.add_zero] at hnul
    simp [cstrAux, hnul]
  | cons a t ih =>
    intro p fuel hbytes hnul hfuel
    obtain ⟨k, rfl⟩ : ∃ k, fuel = k + 1 := ⟨fuel - 1, by simp at hfuel; omega⟩
    have h0 := hbytes 0 (by simp)
    simp only [Nat.add_zero, List.getD_cons_zero] at h0
    have hrest : cstrAux m (p + 1) k = t := by
      apply ih
      · intro i hi
        have h := hbytes (i + 1) (by simp; omega)
        simp only [List.getD_cons_succ] at h
        have e : p + 1 + i = p + (i + 1) := by omega
        rw [e]
        exact h
      · have e : p + 1 + t.length = p + (a :: t).length := by simp; omega
        rw [e]
        exact hnul
      · simp at hfuel
        omega
    simp [cstrAux, hrest, h0.1, h0.2]

theorem cstr_of_text (m : Mem) (p : Nat) (t : List Nat) (h : PointsToText m p t) :
    cstr m p = t := by
  unfold PointsToText at h
  obtain ⟨_, hlt, hbytes, hnul⟩ := h
  have hfuel : t.length < 2 ^ 64 - p := by omega
  exact cstrAux_of_text m t p (2 ^ 64 - p) hbytes hnul hfuel

theorem NewStringUTF_of_text (m : Mem) (p : Nat) (t : List Nat) (h : PointsToText m p t) :
    NewStringUTF m p = some t := by
  have hp : p ≠ 0 := h.1
  simp [NewStringUTF, hp, cstr_of_text m p t h]

theorem readBytes_length (m : Mem) (p : Nat) (n : Nat) : (readBytes m p n).length = n := by
  simp [readBytes]

theorem readBytes_getD (m : Mem) (p : Nat) (n i : Nat) (h : i < n) :
    (readBytes m p n).getD i 0 = m (p + i) := by
  simp [readBytes, List.getD_eq_getElem?_getD, List.getElem?_map, List.getElem?_range h]

theorem toJlong_of_lt (u : Nat) (h : u < 2 ^ 63) : toJlong u = (u : Int) := by
  unfold toJlong
  split <;> omega

theorem toJlong_of_ge (u : Nat) (h : 2 ^ 63 ≤ u) (hw : u < 2 ^ 64) :
    toJlong u = (u : Int) - 2 ^ 64 := by
  unfold toJlong
  split <;> omega

theorem toUintptr_toJlong (u : Nat) (hw : u < 2 ^ 64) : toUintptr (toJlong u) = u := by
  have h1 : u % 2 ^ 64 = u := Nat.mod_eq_of_lt hw
  unfold toUintptr toJlong
  rw [h1]
  split
  · omega
  · omega

theorem toJlong_range (u : Nat) : -2 ^ 63 ≤ toJlong u ∧ toJlong u < 2 ^ 63 := by
  have h1 : u % 2 ^ 64 < 2 ^ 64 := Nat.mod_lt _ (by norm_num)
  unfold toJlong
  split <;> constructor <;> omega

theorem toJlong_eq_zero (u : Nat) (hw : u < 2 ^ 64) (h : toJlong u = 0) : u = 0 := by
  have h1 := toUintptr_toJlong u hw
  rw [h] at h1
  simpa [toUintptr] using h1.symm

theorem memErr_text : PointsToText memErr 16 [101, 114, 114] := by
  unfold PointsToText
  decide

/-! ## The result envelope decoder -/

/-- C1: a data result with a nonzero error code decodes to a response with that code whose
result-set-handle slot and payload slot are both absent (the data field is not copied as result
bytes) and whose message is the NUL-terminated text the data pointer points at; a null data
pointer, which points at no text, gives no message. -/
theorem j_res_ret_failure (m : Mem) (ret : reindexer_ret) (herr : ret.err_code ≠ 0) :
    (j_res_ret m ret).code = ret.err_code ∧
    (j_res_ret m ret).arguments = [none, none] ∧
    (∀ t, PointsToText m ret.out.data t → (j_res_ret m ret).errorMessage = some t) ∧
    (ret.out.data = 0 → (j_res_ret m ret).errorMessage = none) := by
  refine ⟨rfl, ?_, ?_, ?_⟩
  · simp [j_res_ret, herr]
  · intro t ht
    simp [j_res_ret, herr, NewStringUTF_of_text m _ t ht]
  · intro h0
    simp [j_res_ret, herr, NewStringUTF, h0]

theorem j_res_ret_failure_witness :
    (j_res_ret memErr ⟨⟨0, 16, 0⟩, 3⟩).code = 3 ∧
    (j_res_ret memErr ⟨⟨0, 16, 0⟩, 3⟩).arguments = [none, none] ∧
    (j_res_ret memErr ⟨⟨0, 16, 0⟩, 3⟩).errorMessage = some [101, 114, 114] :=
  have h := j_res_ret_failure memErr ⟨⟨0, 16, 0⟩, 3⟩ (by decide)
  ⟨h.1, h.2.1, h.2.2.1 [101, 114, 114] memErr_text⟩

/-- C2, as the code has it: a data result with error code zero and a nonzero `results_ptr`
decodes to a response with code 0 and no message, whose payload slot is a byte array of length
`out.len` holding the bytes at `out.data` (also when `out.len` is 0), and whose handle slot is a
`Long` holding `results_ptr` converted to a signed 64-bit number: nonzero, the same 64-bit value,
equal to `results_ptr` below `2^63` and to `results_ptr - 2^64` from `2^63` on. -/
theorem j_res_ret_success (m : Mem) (ret : reindexer_ret) (herr : ret.err_code = 0)
    (hptr : ret.out.results_ptr ≠ 0) (hword : ret.out.results_ptr < 2 ^ 64) :
    (j_res_ret m ret).code = 0 ∧
    (j_res_ret m ret).errorMessage = none ∧
    (j_res_ret m ret).arguments =
      [some (JObject.long (toJlong ret.out.results_ptr)),
       some (JObject.bytes (readBytes m ret.out.data ret.out.len))] ∧
    (readBytes m ret.out.data ret.out.len).length = ret.out.len ∧
    (∀ i, i < ret.out.len →
      (readBytes m ret.out.data ret.out.len).getD i 0 = m (ret.out.data + i)) ∧
    toJlong ret.out.results_ptr ≠ 0 ∧
    toUintptr (toJlong ret.out.results_ptr) = ret.out.results_ptr ∧
    (ret.out.results_ptr < 2 ^ 63 → toJlong ret.out.results_ptr = (ret.out.results_ptr : Int)) ∧
    (2 ^ 63 ≤ ret.out.results_ptr →
      toJlong ret.out.results_ptr = (ret.out.results_ptr : Int) - 2 ^ 64) := by
  refine ⟨?_, ?_, ?_, readBytes_length _ _ _, fun i hi => readBytes_getD _ _ _ i hi, ?_,
    toUintptr_toJlong _ hword, toJlong_of_lt _, fun h => toJlong_of_ge _ h hword⟩
  · simp [j_res_ret, herr]
  · simp [j_res_ret, herr]
  · simp [j_res_ret, herr, jlong_object, NewByteArrayRegion]
  · intro h
    exact hptr (toJlong_eq_zero _ hword h)

theorem j_res_ret_success_witness :
    (j_res_ret memErr ⟨⟨4096, 16, 2⟩, 0⟩).arguments =
      [some (JObject.long 4096), some (JObject.bytes [101, 114])] ∧
    (j_res_ret memErr ⟨⟨4096, 16, 0⟩, 0⟩).arguments =
      [some (JObject.long 4096), some (JObject.bytes [])] :=
  have h := j_res_ret_success memErr ⟨⟨4096, 16, 2⟩, 0⟩ rfl (by decide) (by decide)
  have h0 := j_res_ret_success memErr ⟨⟨4096, 16, 0⟩, 0⟩ rfl (by decide) (by decide)
  ⟨h.2.2.1.trans (by decide), h0.2.2.1.trans (by decide)⟩

/-- C2 as stated fails: for the handle `2^63` (error code zero) the handle slot holds the number
`-2^63`, not `2^63`. -/
theorem j_res_ret_handle_counterexample :
    (⟨⟨2 ^ 63, 16, 2⟩, 0⟩ : reindexer_ret).err_code = 0 ∧
    (⟨⟨2 ^ 63, 16, 2⟩, 0⟩ : reindexer_ret).out.results_ptr ≠ 0 ∧
    (j_res_ret memErr ⟨⟨2 ^ 63, 16, 2⟩, 0⟩).arguments =
      [some (JObject.long (-9223372036854775808)), some (JObject.bytes [101, 114])] ∧
    (j_res_ret memErr ⟨⟨2 ^ 63, 16, 2⟩, 0⟩).arguments.head? ≠
      some (some (JObject.long ((2 ^ 63 : Nat) : Int))) := by
  decide

/-- C3, as the code has it: the status-only decoder passes the code through, builds no
arguments, and takes the message from `error.what` alone, whatever the code: no message when
`error.what` is null, and the NUL-terminated text `error.what` points at otherwise (an empty
message for an empty text). -/
theorem j_res_error_message (m : Mem) (error : reindexer_error) :
    (j_res_error m error).code = error.code ∧
    (j_res_error m error).arguments = [] ∧
    (error.what = 0 → (j_res_error m error).errorMessage = none) ∧
    (∀ t, PointsToText m error.what t → (j_res_error m error).errorMessage = some t) := by
  refine ⟨rfl, rfl, ?_, ?_⟩
  · intro h0
    simp [j_res_error, NewStringUTF, h0]
  · intro t ht
    simp [j_res_error, NewStringUTF_of_text m _ t ht]

theorem j_res_error_message_witness :
    (j_res_error memErr ⟨0, 0⟩).errorMessage = none ∧
    (j_res_error memErr ⟨16, 13⟩).errorMessage = some [101, 114, 114] :=
  ⟨(j_res_error_message memErr ⟨0, 0⟩).2.2.1 rfl,
   (j_res_error_message memErr ⟨16, 13⟩).2.2.2 [101, 114, 114] memErr_text⟩

/-- C3 as stated fails in both halves: a nonzero code with a null `what` gives no message, a
nonzero code with an empty text gives an empty message, and a zero code with a non-null `what`
gives a message. -/
theorem j_res_error_counterexample :
    (j_res_error memErr ⟨0, 13⟩).code ≠ 0 ∧
    (j_res_error memErr ⟨0, 13⟩).errorMessage = none ∧
    (j_res_error memErr ⟨19, 13⟩).errorMessage = some [] ∧
    (j_res_error memErr ⟨16, 0⟩).code = 0 ∧
    (j_res_error memErr ⟨16, 0⟩).errorMessage = some [101, 114, 114] := by
  decide

/-- C4, as the code has it: the error code of a transaction result is zero exactly when the
response has no message and its only slot is a `Long` holding `tx_id` converted to a signed
64-bit number (the same 64-bit value; equal to `tx_id` below `2^63`); it is nonzero exactly when
that slot is absent and the message is built from `err.what`: the text it points at, and no
message when it is null. -/
theorem j_res_tx_iff (m : Mem) (ret : reindexer_tx_ret) (hword : ret.tx_id < 2 ^ 64) :
    (j_res_tx m ret).code = ret.err.code ∧
    (ret.err.code = 0 ↔
      (j_res_tx m ret).arguments = [some (JObject.long (toJlong ret.tx_id))] ∧
      (j_res_tx m ret).errorMessage = none) ∧
    (ret.err.code ≠ 0 ↔
      (j_res_tx m ret).arguments = [none] ∧
      (j_res_tx m ret).errorMessage = NewStringUTF m ret.err.what) ∧
    (ret.err.code ≠ 0 → ∀ t, PointsToText m ret.err.what t →
      (j_res_tx m ret).errorMessage = some t) ∧
    (ret.err.code ≠ 0 → ret.err.what = 0 → (j_res_tx m ret).errorMessage = none) ∧
    toUintptr (toJlong ret.tx_id) = ret.tx_id ∧
    (ret.tx_id < 2 ^ 63 → toJlong ret.tx_id = (ret.tx_id : Int)) := by
  refine ⟨rfl, ?_, ?_, ?_, ?_, toUintptr_toJlong _ hword, toJlong_of_lt _⟩
  · by_cases h : ret.err.code = 0 <;> simp [j_res_tx, h, jlong_object]
  · by_cases h : ret.err.code = 0 <;> simp [j_res_tx, h, jlong_object]
  · intro h t ht
    simp [j_res_tx, h, NewStringUTF_of_text m _ t ht]
  · intro h h0
    simp [j_res_tx, h, NewStringUTF, h0]

theorem j_res_tx_iff_witness :
    (j_res_tx memErr ⟨77, ⟨0, 0⟩⟩).arguments = [some (JObject.long 77)] ∧
    (j_res_tx memErr ⟨77, ⟨0, 0⟩⟩).errorMessage = none ∧
    (j_res_tx memErr ⟨0, ⟨16, 13⟩⟩).arguments = [none] ∧
    (j_res_tx memErr ⟨0, ⟨16, 13⟩⟩).errorMessage = some [101, 114, 114] :=
  have h := j_res_tx_iff memErr ⟨77, ⟨0, 0⟩⟩ (by decide)
  have h2 := j_res_tx_iff memErr ⟨0, ⟨16, 13⟩⟩ (by decide)
  ⟨(h.2.1.mp rfl).1, (h.2.1.mp rfl).2, (h2.2.2.1.mp (by decide)).1,
   h2.2.2.2.1 (by decide) [101, 114, 114] memErr_text⟩

/-- C4 as stated fails: for the transaction handle `2^63` (error code zero) the response carries
the number `-2^63`, not `2^63`; and a nonzero code with a null `what` gives a response that carries
no message. -/
theorem j_res_tx_counterexample :
    (j_res_tx memErr ⟨2 ^ 63, ⟨0, 0⟩⟩).code = 0 ∧
    (j_res_tx memErr ⟨2 ^ 63, ⟨0, 0⟩⟩).arguments = [some (JObject.long (-9223372036854775808))] ∧
    (j_res_tx memErr ⟨2 ^ 63, ⟨0, 0⟩⟩).arguments ≠ [some (JObject.long ((2 ^ 63 : Nat) : Int))] ∧
    (j_res_tx memErr ⟨5, ⟨0, 13⟩⟩).code ≠ 0 ∧
    (j_res_tx memErr ⟨5, ⟨0, 13⟩⟩).errorMessage = none := by
  decide

/-- C5, as the code has it: a data result with error code zero and `results_ptr` zero decodes to
a response whose handle slot is present and holds a `Long` with the value 0. -/
theorem j_res_ret_zero_handle (m : Mem) (ret : reindexer_ret) (herr : ret.err_code = 0)
    (hptr : ret.out.results_ptr = 0) :
    (j_res_ret m ret).arguments.head? = some (some (JObject.long 0)) ∧
    (j_res_ret m ret).arguments =
      [some (JObject.long 0), some (JObject.bytes (readBytes m ret.out.data ret.out.len))] := by
  simp [j_res_ret, herr, hptr, jlong_object, NewByteArrayRegion, toJlong]

theorem j_res_ret_zero_handle_witness :
    (j_res_ret memErr ⟨⟨0, 16, 3⟩, 0⟩).arguments =
      [some (JObject.long 0), some (JObject.bytes [101, 114, 114])] :=
  (j_res_ret_zero_handle memErr ⟨⟨0, 16, 3⟩, 0⟩ rfl rfl).2.trans (by decide)

/-- C5 as stated fails: with error code zero and `results_ptr` zero the handle slot is not
absent. -/
theorem j_res_ret_zero_handle_counterexample :
    (⟨⟨0, 16, 3⟩, 0⟩ : reindexer_ret).err_code = 0 ∧
    (⟨⟨0, 16, 3⟩, 0⟩ : reindexer_ret).out.results_ptr = 0 ∧
    (j_res_ret memErr ⟨⟨0, 16, 3⟩, 0⟩).arguments.head? ≠ some none ∧
    (j_res_ret memErr ⟨⟨0, 16, 3⟩, 0⟩).arguments.head? = some (some (JObject.long 0)) := by
  decide

/-! ## Borrowed views -/

/-- C6: in every bridged operation the adapter borrows exactly its string, byte-array and
version-array arguments, in order; the trace of the operation is these borrows, then the native
calls, then one release for each borrow, naming the same kind, managed object and pointer; an
operation with such arguments makes exactly one native call. This holds for every runtime and
every engine, whatever the engine returns. -/
theorem borrows_released (jvm : JVM) (eng : Engine) (op : Op) (w : World) :
    (getsOf (opTrace jvm eng op w)).map (fun g => (g.1, g.2.1)) = op.managedArgs ∧
    releasesOf (opTrace jvm eng op w) = getsOf (opTrace jvm eng op w) ∧
    opTrace jvm eng op w =
      (getsOf (opTrace jvm eng op w)).map (fun g => Event.get g.1 g.2.1 g.2.2) ++
      nativeEventsOf (opTrace jvm eng op w) ++
      (releasesOf (opTrace jvm eng op w)).map (fun g => Event.release g.1 g.2.1 g.2.2) ∧
    (op.managedArgs ≠ [] → (nativesOf (opTrace jvm eng op w)).length = 1) := by
  cases op <;>
    simp [opTrace, dispatch, StateT.run, Functor.map, StateT.map, bind, StateT.bind,
      Java_ru_rt_restream_reindexer_binding_builtin_BuiltinAdapter_init,
      Java_ru_rt_restream_reindexer_binding_builtin_BuiltinAdapter_destroy,
      Java_ru_rt_restream_reindexer_binding_builtin_BuiltinAdapter_connect,
      Java_ru_rt_restream_reindexer_binding_builtin_BuiltinAdapter_openNamespace,
      Java_ru_rt_restream_reindexer_binding_builtin_BuiltinAdapter_closeNamespace,
      Java_ru_rt_restream_reindexer_binding_builtin_BuiltinAdapter_dropNamespace,
      Java_ru_rt_restream_reindexer_binding_builtin_BuiltinAdapter_addIndex,
      Java_ru_rt_restream_reindexer_binding_builtin_BuiltinAdapter_modifyItem,
      Java_ru_rt_restream_reindexer_binding_builtin_BuiltinAdapter_modifyItemTx,
      Java_ru_rt_restream_reindexer_binding_builtin_BuiltinAdapter_beginTx,
      Java_ru_rt_restream_reindexer_binding_builtin_BuiltinAdapter_commitTx,
      Java_ru_rt_restream_reindexer_binding_builtin_BuiltinAdapter_rollbackTx,
      Java_ru_rt_restream_reindexer_binding_builtin_BuiltinAdapter_selectQuery,
      Java_ru_rt_restream_reindexer_binding_builtin_BuiltinAdapter_deleteQuery,
      Java_ru_rt_restream_reindexer_binding_builtin_BuiltinAdapter_deleteQueryTx,
      Java_ru_rt_restream_reindexer_binding_builtin_BuiltinAdapter_updateQuery,
      Java_ru_rt_restream_reindexer_binding_builtin_BuiltinAdapter_updateQueryTx,
      Java_ru_rt_restream_reindexer_util_NativeUtils_getBytes,
      Java_ru_rt_restream_reindexer_util_NativeUtils_freeNativeBuffer,
      Java_ru_rt_restream_reindexer_binding_builtin_BuiltinAdapter_initServer,
      Java_ru_rt_restream_reindexer_binding_builtin_BuiltinAdapter_destroyServer,
      Java_ru_rt_restream_reindexer_binding_builtin_BuiltinAdapter_startServer,
      Java_ru_rt_restream_reindexer_binding_builtin_BuiltinAdapter_stopServer,
      Java_ru_rt_restream_reindexer_binding_builtin_BuiltinAdapter_isServerReady,
      Java_ru_rt_restream_reindexer_binding_builtin_BuiltinAdapter_getInstance,
      Java_ru_rt_restream_reindexer_binding_builtin_BuiltinAdapter_putMeta,
      Java_ru_rt_restream_reindexer_binding_builtin_BuiltinAdapter_getMeta,
      rx_string, rx_buffer, GetStringUTFChars, GetByteArrayElements, GetLongArrayElements, borrow,
      callNative, ReleaseStringUTFChars, ReleaseByteArrayElements, ReleaseLongArrayElements, emit,
      j_res_call, returnShape, j_res_errorM, j_res_retM, j_res_txM, get, getThe, MonadStateOf.get, StateT.get, set,
      StateT.set, pure, StateT.pure, modify, modifyGet, MonadStateOf.modifyGet, StateT.modifyGet,
      MonadState.get, MonadStateOf.set, getsOf, releasesOf, nativesOf, nativeEventsOf,
      Op.managedArgs]

theorem borrows_released_witness :
    getsOf (opTrace jvmLE engOk (Op.connect 1 ⟨5, [97]⟩ ⟨6, [98]⟩) world0) =
      [(BorrowKind.utfChars, 5, 4096), (BorrowKind.utfChars, 6, 4352)] ∧
    releasesOf (opTrace jvmLE engOk (Op.connect 1 ⟨5, [97]⟩ ⟨6, [98]⟩) world0) =
      [(BorrowKind.utfChars, 5, 4096), (BorrowKind.utfChars, 6, 4352)] ∧
    (nativesOf (opTrace jvmLE engOk (Op.connect 1 ⟨5, [97]⟩ ⟨6, [98]⟩) world0)).length = 1 :=
  have h := borrows_released jvmLE engOk (Op.connect 1 ⟨5, [97]⟩ ⟨6, [98]⟩) world0
  ⟨by decide, h.2.1.trans (by decide), h.2.2.2 (by decide)⟩

/-! ## Item payload retrieval -/

/-- C7: for every result-set handle, item pointer and namespace id, `getBytes` makes exactly two
native calls, `reindexer_cptr2cjson` with these arguments and then `reindexer_free_cjson` with the
buffer the first call returned; it returns a byte array whose length is the `len` of that buffer
and whose bytes are the bytes at its `data`, read from the memory as it is before the buffer is
freed. Nothing depends on `len` being nonzero. -/
theorem getBytes_copies_and_frees (jvm : JVM) (eng : Engine) (w : World)
    (resultsPtr cPtr nsId : Int) :
    opResult jvm eng (Op.getBytes resultsPtr cPtr nsId) w =
      JValue.object (JObject.bytes (readBytes
        (eng w.trace w.mem (NativeCall.reindexer_cptr2cjson resultsPtr cPtr nsId)).mem
        (eng w.trace w.mem (NativeCall.reindexer_cptr2cjson resultsPtr cPtr nsId)).buf.data
        (eng w.trace w.mem (NativeCall.reindexer_cptr2cjson resultsPtr cPtr nsId)).buf.len)) ∧
    (readBytes
        (eng w.trace w.mem (NativeCall.reindexer_cptr2cjson resultsPtr cPtr nsId)).mem
        (eng w.trace w.mem (NativeCall.reindexer_cptr2cjson resultsPtr cPtr nsId)).buf.data
        (eng w.trace w.mem (NativeCall.reindexer_cptr2cjson resultsPtr cPtr nsId)).buf.len).length =
      (eng w.trace w.mem (NativeCall.reindexer_cptr2cjson resultsPtr cPtr nsId)).buf.len ∧
    (∀ i, i < (eng w.trace w.mem (NativeCall.reindexer_cptr2cjson resultsPtr cPtr nsId)).buf.len →
      (readBytes
        (eng w.trace w.mem (NativeCall.reindexer_cptr2cjson resultsPtr cPtr nsId)).mem
        (eng w.trace w.mem (NativeCall.reindexer_cptr2cjson resultsPtr cPtr nsId)).buf.data
        (eng w.trace w.mem (NativeCall.reindexer_cptr2cjson resultsPtr cPtr nsId)).buf.len).getD i 0 =
      (eng w.trace w.mem (NativeCall.reindexer_cptr2cjson resultsPtr cPtr nsId)).mem
        ((eng w.trace w.mem (NativeCall.reindexer_cptr2cjson resultsPtr cPtr nsId)).buf.data + i)) ∧
    opTrace jvm eng (Op.getBytes resultsPtr cPtr nsId) w =
      [Event.native (NativeCall.reindexer_cptr2cjson resultsPtr cPtr nsId) w.mem,
       Event.native
        (NativeCall.reindexer_free_cjson
          (eng w.trace w.mem (NativeCall.reindexer_cptr2cjson resultsPtr cPtr nsId)).buf)
        (eng w.trace w.mem (NativeCall.reindexer_cptr2cjson resultsPtr cPtr nsId)).mem] := by
  refine ⟨?_, readBytes_length _ _ _, fun i hi => readBytes_getD _ _ _ i hi, ?_⟩
  · rfl
  · simp [opTrace, dispatch, StateT.run, Functor.map, StateT.map, bind, StateT.bind,
      Java_ru_rt_restream_reindexer_util_NativeUtils_getBytes, callNative, get, getThe,
      MonadStateOf.get, StateT.get, set, StateT.set, pure, StateT.pure, MonadState.get,
      MonadStateOf.set]

theorem getBytes_copies_and_frees_witness :
    opResult jvmLE engOk (Op.getBytes 4096 1 0) world0 =
      JValue.object (JObject.bytes [101, 114, 114]) ∧
    nativesOf (opTrace jvmLE engOk (Op.getBytes 4096 1 0) world0) =
      [NativeCall.reindexer_cptr2cjson 4096 1 0, NativeCall.reindexer_free_cjson ⟨16, 3⟩] :=
  have h := getBytes_copies_and_frees jvmLE engOk world0 4096 1 0
  ⟨h.1.trans (by decide), by rw [h.2.2.2]; rfl⟩

/-! ## Payload-format versions of a select -/

/-- C8, the code at a failing input: for the version array `[1, 2]` the native select call is
given the count 2 and a pointer through which it reads the `int32_t` values `1, 0` on a
little-endian platform and `0, 1` on a big-endian one, not `1, 2`: the 64-bit elements of the
managed array are read as 32-bit values. A one-element array `[5]` is read as `5` on a
little-endian platform. -/
theorem selectQuery_versions_misread :
    nativesOf (opTrace jvmLE engOk (Op.selectQuery 1 0 0 ⟨7, [9]⟩ ⟨8, [1, 2]⟩ false) world0) =
      [NativeCall.reindexer_select_query 1 ⟨4352, 1⟩ false 4096 2 ⟨0, 0⟩] ∧
    (nativeEventsOf
      (opTrace jvmLE engOk (Op.selectQuery 1 0 0 ⟨7, [9]⟩ ⟨8, [1, 2]⟩ false) world0)).map
      (versionsRead false) = [[1, 0]] ∧
    (nativeEventsOf
      (opTrace jvmBE engOk (Op.selectQuery 1 0 0 ⟨7, [9]⟩ ⟨8, [1, 2]⟩ false) world0)).map
      (versionsRead true) = [[0, 1]] ∧
    (nativeEventsOf
      (opTrace jvmLE engOk (Op.selectQuery 1 0 0 ⟨7, [9]⟩ ⟨8, [5]⟩ false) world0)).map
      (versionsRead false) = [[5]] := by
  decide

/-! ## Handles after their terminal call -/

/-- C9, as the code has it: the adapter keeps no state for a transaction handle and rejects
nothing. In every state, whatever calls came before (a `commitTx` or `rollbackTx` with the same
handle included), each of `modifyItemTx`, `updateQueryTx`, `deleteQueryTx`, `commitTx` and
`rollbackTx` makes exactly one native call, the one of its kind, with the connection and
transaction handles it was given. -/
theorem tx_calls_forwarded (jvm : JVM) (eng : Engine) (w : World) (rx txId ctxId timeout : Int)
    (args data : JByteArray) :
    nativesOf (opTrace jvm eng (Op.modifyItemTx rx txId args data) w) =
      [NativeCall.reindexer_modify_item_packed_tx rx txId
        ⟨jvm.pin w.trace.length args.ref, args.elems.length⟩
        ⟨jvm.pin (w.trace.length + 1) data.ref, data.elems.length⟩] ∧
    nativesOf (opTrace jvm eng (Op.updateQueryTx rx txId data) w) =
      [NativeCall.reindexer_update_query_tx rx txId
        ⟨jvm.pin w.trace.length data.ref, data.elems.length⟩] ∧
    nativesOf (opTrace jvm eng (Op.deleteQueryTx rx txId data) w) =
      [NativeCall.reindexer_delete_query_tx rx txId
        ⟨jvm.pin w.trace.length data.ref, data.elems.length⟩] ∧
    nativesOf (opTrace jvm eng (Op.commitTx rx txId ctxId timeout) w) =
      [NativeCall.reindexer_commit_transaction rx txId (rx_ctx ctxId timeout)] ∧
    nativesOf (opTrace jvm eng (Op.rollbackTx rx txId) w) =
      [NativeCall.reindexer_rollback_transaction rx txId] := by
  refine ⟨?_, ?_, ?_, ?_, ?_⟩ <;>
    simp [opTrace, dispatch, StateT.run, Functor.map, StateT.map, bind, StateT.bind,
      Java_ru_rt_restream_reindexer_binding_builtin_BuiltinAdapter_modifyItemTx,
      Java_ru_rt_restream_reindexer_binding_builtin_BuiltinAdapter_updateQueryTx,
      Java_ru_rt_restream_reindexer_binding_builtin_BuiltinAdapter_deleteQueryTx,
      Java_ru_rt_restream_reindexer_binding_builtin_BuiltinAdapter_commitTx,
      Java_ru_rt_restream_reindexer_binding_builtin_BuiltinAdapter_rollbackTx,
      rx_buffer, GetByteArrayElements, borrow, callNative, ReleaseByteArrayElements, emit,
      j_res_call, returnShape, j_res_errorM, j_res_retM, get, getThe, MonadStateOf.get, StateT.get, set,
      StateT.set, pure, StateT.pure, modify, modifyGet, MonadStateOf.modifyGet, StateT.modifyGet,
      MonadState.get, MonadStateOf.set, nativesOf]

/-- C9 as stated fails: after `beginTx` has returned the handle 77 and `commitTx` has been called
with it, a `modifyItemTx`, a second `commitTx` and a `rollbackTx` with the handle 77 are each
forwarded to the native engine, and the `modifyItemTx` returns the decoding of what the engine
answered. -/
theorem tx_after_commit_counterexample :
    ((runAll jvmLE engOk
        [Op.beginTx 1 ⟨5, [110]⟩, Op.commitTx 1 77 0 0, Op.modifyItemTx 1 77 ⟨6, [1]⟩ ⟨7, [2, 3]⟩,
         Op.commitTx 1 77 0 0, Op.rollbackTx 1 77]).run world0).1 =
      [JValue.response ⟨0, none, [some (JObject.long 77)]⟩,
       JValue.response ⟨0, none, []⟩,
       JValue.response ⟨0, none, [some (JObject.long 4096), some (JObject.bytes [])]⟩,
       JValue.response ⟨0, none, []⟩,
       JValue.response ⟨0, none, []⟩] ∧
    nativesOf (seqTrace jvmLE engOk
        [Op.beginTx 1 ⟨5, [110]⟩, Op.commitTx 1 77 0 0, Op.modifyItemTx 1 77 ⟨6, [1]⟩ ⟨7, [2, 3]⟩,
         Op.commitTx 1 77 0 0, Op.rollbackTx 1 77] world0) =
      [NativeCall.reindexer_start_transaction 1 ⟨4096, 1⟩,
       NativeCall.reindexer_commit_transaction 1 77 ⟨0, 0⟩,
       NativeCall.reindexer_modify_item_packed_tx 1 77 ⟨5120, 1⟩ ⟨5376, 2⟩,
       NativeCall.reindexer_commit_transaction 1 77 ⟨0, 0⟩,
       NativeCall.reindexer_rollback_transaction 1 77] := by
  decide

/-- C10, as the code has it: the adapter keeps no state for a result-set handle. In every state,
whatever calls came before (a release of the same handle included), `freeNativeBuffer` makes
exactly one native call, `reindexer_free_buffer` with the handle as `results_ptr`, and `getBytes`
calls `reindexer_cptr2cjson` with the handle it was given. -/
theorem result_set_calls_forwarded (jvm : JVM) (eng : Engine) (w : World)
    (resultsPtr cPtr nsId : Int) :
    nativesOf (opTrace jvm eng (Op.freeNativeBuffer resultsPtr) w) =
      [NativeCall.reindexer_free_buffer ⟨toUintptr resultsPtr, 0, 0⟩] ∧
    (nativesOf (opTrace jvm eng (Op.getBytes resultsPtr cPtr nsId) w)).head? =
      some (NativeCall.reindexer_cptr2cjson resultsPtr cPtr nsId) := by
  refine ⟨?_, ?_⟩ <;>
    simp [opTrace, dispatch, StateT.run, Functor.map, StateT.map, bind, StateT.bind,
      Java_ru_rt_restream_reindexer_util_NativeUtils_getBytes,
      Java_ru_rt_restream_reindexer_util_NativeUtils_freeNativeBuffer, callNative, get, getThe,
      MonadStateOf.get, StateT.get, set, StateT.set, pure, StateT.pure, MonadState.get,
      MonadStateOf.set, nativesOf]

/-- C10 as stated fails: a second `freeNativeBuffer` with the handle 4096, and a `getBytes`
naming it after that, both reach the native engine. -/
theorem release_twice_counterexample :
    nativesOf (seqTrace jvmLE engOk
        [Op.freeNativeBuffer 4096, Op.freeNativeBuffer 4096, Op.getBytes 4096 1 0] world0) =
      [NativeCall.reindexer_free_buffer ⟨4096, 0, 0⟩,
       NativeCall.reindexer_free_buffer ⟨4096, 0, 0⟩,
       NativeCall.reindexer_cptr2cjson 4096 1 0,
       NativeCall.reindexer_free_cjson ⟨16, 3⟩] := by
  decide

/-! ## Lemmas on views of memory -/

theorem readBytes_writeBytes_prefix (m : Mem) (p : Nat) (bs cs : List Nat) :
    readBytes (writeBytes m p (bs ++ cs)) p bs.length = bs := by
  apply List.ext_getElem
  · simp [readBytes]
  · intro i h1 h2
    have hi : i < bs.length := h2
    simp [readBytes, writeBytes, List.getD_eq_getElem?_getD, List.getElem?_append_left hi, hi]
    omega

theorem readBytes_writeBytes_full (m : Mem) (p : Nat) (bs : List Nat) :
    readBytes (writeBytes m p bs) p bs.length = bs := by
  have h := readBytes_writeBytes_prefix m p bs []
  simpa using h

theorem readBytes_writeBytes_apart (m : Mem) (p n q : Nat) (cs : List Nat)
    (h : Apart p n q cs.length) :
    readBytes (writeBytes m q cs) p n = readBytes m p n := by
  unfold Apart at h
  apply List.ext_getElem
  · simp [readBytes]
  · intro i h1 h2
    have hi : i < n := by simpa [readBytes] using h1
    have hout : ¬ (q ≤ p + i ∧ p + i < q + cs.length) := by omega
    simp [readBytes, writeBytes, hout]

theorem writeBytes_terminator (m : Mem) (p : Nat) (bs : List Nat) :
    writeBytes m p (bs ++ [0]) (p + bs.length) = 0 := by
  simp [writeBytes, List.getD_eq_getElem?_getD]

theorem toJlong_toUintptr (jl : Int) (h1 : -2 ^ 63 ≤ jl) (h2 : jl < 2 ^ 63) :
    toJlong (toUintptr jl) = jl := by
  unfold toJlong toUintptr
  split <;> omega

theorem metaLookup_append (key : Int × List Nat × List Nat) (l1 l2 : List Event) :
    metaLookup key (l1 ++ l2) =
      match metaLookup key l2 with
      | some v => some v
      | none => metaLookup key l1 := by
  induction l1 with
  | nil => cases h : metaLookup key l2 <;> simp [metaLookup, h]
  | cons e l1 ih =>
    cases h : metaLookup key l2 with
    | none =>
      rw [h] at ih
      simp only at ih
      cases e with
      | get k obj p => simpa [metaLookup] using ih
      | release k obj p => simpa [metaLookup] using ih
      | native c m => cases c <;> simp [metaLookup, ih]
    | some val =>
      rw [h] at ih
      simp only at ih
      cases e with
      | get k obj p => simpa [metaLookup] using ih
      | release k obj p => simpa [metaLookup] using ih
      | native c m => cases c <;> simp [metaLookup, ih]

theorem engOk_isOk (tr : List Event) (m : Mem) (c : NativeCall) : (engOk tr m c).IsOk :=
  ⟨rfl, rfl, rfl⟩

theorem engOk_code (tr : List Event) (m : Mem) (c : NativeCall) (s : Shape) :
    (engOk tr m c).code s = 0 := by
  cases s <;> rfl

theorem engFail_isFailure (tr : List Event) (m : Mem) (c : NativeCall) :
    (engFail tr m c).IsFailure := by
  refine ⟨?_, ?_, ?_⟩ <;> simp [engFail]

/-! ## What a native method passes on and returns -/

theorem response_decodes (jvm : JVM) (eng : Engine) (op : Op) (w : World)
    (hop : op.returnsResponse = true) :
    ∃ c m, nativeEventsOf (opTrace jvm eng op w) = [Event.native c m] ∧
      opResult jvm eng op w =
        JValue.response (decodeOut (returnShape c)
          (eng (w.trace ++ (opTrace jvm eng op w).take op.managedArgs.length) m c)) ∧
      (opResult jvm eng op w).code? =
        some ((eng (w.trace ++ (opTrace jvm eng op w).take op.managedArgs.length) m c).code
          (returnShape c)) := by
  cases op <;> simp [Op.returnsResponse] at hop <;>
    simp [opTrace, opResult, dispatch, StateT.run, Functor.map, StateT.map, bind, StateT.bind,
      Java_ru_rt_restream_reindexer_binding_builtin_BuiltinAdapter_init,
      Java_ru_rt_restream_reindexer_binding_builtin_BuiltinAdapter_destroy,
      Java_ru_rt_restream_reindexer_binding_builtin_BuiltinAdapter_connect,
      Java_ru_rt_restream_reindexer_binding_builtin_BuiltinAdapter_openNamespace,
      Java_ru_rt_restream_reindexer_binding_builtin_BuiltinAdapter_closeNamespace,
      Java_ru_rt_restream_reindexer_binding_builtin_BuiltinAdapter_dropNamespace,
      Java_ru_rt_restream_reindexer_binding_builtin_BuiltinAdapter_addIndex,
      Java_ru_rt_restream_reindexer_binding_builtin_BuiltinAdapter_modifyItem,
      Java_ru_rt_restream_reindexer_binding_builtin_BuiltinAdapter_modifyItemTx,
      Java_ru_rt_restream_reindexer_binding_builtin_BuiltinAdapter_beginTx,
      Java_ru_rt_restream_reindexer_binding_builtin_BuiltinAdapter_commitTx,
      Java_ru_rt_restream_reindexer_binding_builtin_BuiltinAdapter_rollbackTx,
      Java_ru_rt_restream_reindexer_binding_builtin_BuiltinAdapter_selectQuery,
      Java_ru_rt_restream_reindexer_binding_builtin_BuiltinAdapter_deleteQuery,
      Java_ru_rt_restream_reindexer_binding_builtin_BuiltinAdapter_deleteQueryTx,
      Java_ru_rt_restream_reindexer_binding_builtin_BuiltinAdapter_updateQuery,
      Java_ru_rt_restream_reindexer_binding_builtin_BuiltinAdapter_updateQueryTx,
      Java_ru_rt_restream_reindexer_util_NativeUtils_getBytes,
      Java_ru_rt_restream_reindexer_util_NativeUtils_freeNativeBuffer,
      Java_ru_rt_restream_reindexer_binding_builtin_BuiltinAdapter_initServer,
      Java_ru_rt_restream_reindexer_binding_builtin_BuiltinAdapter_destroyServer,
      Java_ru_rt_restream_reindexer_binding_builtin_BuiltinAdapter_startServer,
      Java_ru_rt_restream_reindexer_binding_builtin_BuiltinAdapter_stopServer,
      Java_ru_rt_restream_reindexer_binding_builtin_BuiltinAdapter_isServerReady,
      Java_ru_rt_restream_reindexer_binding_builtin_BuiltinAdapter_getInstance,
      Java_ru_rt_restream_reindexer_binding_builtin_BuiltinAdapter_putMeta,
      Java_ru_rt_restream_reindexer_binding_builtin_BuiltinAdapter_getMeta,
      rx_string, rx_buffer, GetStringUTFChars, GetByteArrayElements, GetLongArrayElements, borrow,
      callNative, ReleaseStringUTFChars, ReleaseByteArrayElements, ReleaseLongArrayElements, emit,
      j_res_call, returnShape, j_res_errorM, j_res_retM, j_res_txM, get, getThe,
      MonadStateOf.get, StateT.get, set, StateT.set, pure, StateT.pure, modify, modifyGet,
      MonadStateOf.modifyGet, StateT.modifyGet, MonadState.get, MonadStateOf.set, nativeEventsOf, JValue.code?, NativeOut.code, decodeOut, Op.managedArgs,
      j_res_error, j_res_ret, j_res_tx] <;>
    refine ⟨_, _, ⟨rfl, rfl⟩, ?_⟩ <;> simp

theorem view_lengths (jvm : JVM) (eng : Engine) (op : Op) (w : World) :
    ((nativesOf (opTrace jvm eng op w)).map NativeCall.viewLens).flatten = op.managedLens := by
  cases op <;> simp [opTrace, opResult, dispatch, StateT.run, Functor.map, StateT.map, bind, StateT.bind,
      Java_ru_rt_restream_reindexer_binding_builtin_BuiltinAdapter_init,
      Java_ru_rt_restream_reindexer_binding_builtin_BuiltinAdapter_destroy,
      Java_ru_rt_restream_reindexer_binding_builtin_BuiltinAdapter_connect,
      Java_ru_rt_restream_reindexer_binding_builtin_BuiltinAdapter_openNamespace,
      Java_ru_rt_restream_reindexer_binding_builtin_BuiltinAdapter_closeNamespace,
      Java_ru_rt_restream_reindexer_binding_builtin_BuiltinAdapter_dropNamespace,
      Java_ru_rt_restream_reindexer_binding_builtin_BuiltinAdapter_addIndex,
      Java_ru_rt_restream_reindexer_binding_builtin_BuiltinAdapter_modifyItem,
      Java_ru_rt_restream_reindexer_binding_builtin_BuiltinAdapter_modifyItemTx,
      Java_ru_rt_restream_reindexer_binding_builtin_BuiltinAdapter_beginTx,
      Java_ru_rt_restream_reindexer_binding_builtin_BuiltinAdapter_commitTx,
      Java_ru_rt_restream_reindexer_binding_builtin_BuiltinAdapter_rollbackTx,
      Java_ru_rt_restream_reindexer_binding_builtin_BuiltinAdapter_selectQuery,
      Java_ru_rt_restream_reindexer_binding_builtin_BuiltinAdapter_deleteQuery,
      Java_ru_rt_restream_reindexer_binding_builtin_BuiltinAdapter_deleteQueryTx,
      Java_ru_rt_restream_reindexer_binding_builtin_BuiltinAdapter_updateQuery,
      Java_ru_rt_restream_reindexer_binding_builtin_BuiltinAdapter_updateQueryTx,
      Java_ru_rt_restream_reindexer_util_NativeUtils_getBytes,
      Java_ru_rt_restream_reindexer_util_NativeUtils_freeNativeBuffer,
      Java_ru_rt_restream_reindexer_binding_builtin_BuiltinAdapter_initServer,
      Java_ru_rt_restream_reindexer_binding_builtin_BuiltinAdapter_destroyServer,
      Java_ru_rt_restream_reindexer_binding_builtin_BuiltinAdapter_startServer,
      Java_ru_rt_restream_reindexer_binding_builtin_BuiltinAdapter_stopServer,
      Java_ru_rt_restream_reindexer_binding_builtin_BuiltinAdapter_isServerReady,
      Java_ru_rt_restream_reindexer_binding_builtin_BuiltinAdapter_getInstance,
      Java_ru_rt_restream_reindexer_binding_builtin_BuiltinAdapter_putMeta,
      Java_ru_rt_restream_reindexer_binding_builtin_BuiltinAdapter_getMeta,
      rx_string, rx_buffer, GetStringUTFChars, GetByteArrayElements, GetLongArrayElements, borrow,
      callNative, ReleaseStringUTFChars, ReleaseByteArrayElements, ReleaseLongArrayElements, emit,
      j_res_call, returnShape, j_res_errorM, j_res_retM, j_res_txM, get, getThe,
      MonadStateOf.get, StateT.get, set, StateT.set, pure, StateT.pure, modify, modifyGet,
      MonadStateOf.modifyGet, StateT.modifyGet, MonadState.get, MonadStateOf.set, nativesOf, NativeCall.viewLens, Op.managedLens, GetStringUTFLength]

/-! ## Success and failure in the returned value -/

/-- C11, as the code has it: every native method that returns a `ReindexerResponse` makes one
native call and returns the decoding of its outcome, a response whose code is the error code that
outcome carries; so for an engine whose outcomes carry the code zero and an engine whose outcomes
carry a nonzero code the returned values differ. `putMeta` returns no value, whatever the engine
answers, and `getInstance` returns the same value for two engines that store the same handle,
whatever error codes they report. -/
theorem response_distinguishes (jvm : JVM) (eng1 eng2 : Engine) (w : World)
    (h1 : ∀ tr m c, (eng1 tr m c).IsOk) (h2 : ∀ tr m c, (eng2 tr m c).IsFailure) :
    (∀ op : Op, op.returnsResponse = true →
      (opResult jvm eng1 op w).code? = some 0 ∧
      (∃ k, k ≠ 0 ∧ (opResult jvm eng2 op w).code? = some k) ∧
      opResult jvm eng1 op w ≠ opResult jvm eng2 op w) ∧
    (∀ rx ctxId timeout namespaceName key data,
      opResult jvm eng1 (Op.putMeta rx ctxId timeout namespaceName key data) w = JValue.void ∧
      opResult jvm eng2 (Op.putMeta rx ctxId timeout namespaceName key data) w = JValue.void) ∧
    (∀ svc database user password,
      (∀ tr m c, (eng1 tr m c).inst = (eng2 tr m c).inst) →
      opResult jvm eng1 (Op.getInstance svc database user password) w =
        opResult jvm eng2 (Op.getInstance svc database user password) w) ∧
    (∀ (eng : Engine) (op : Op), op.returnsResponse = true →
      ∃ c m, nativeEventsOf (opTrace jvm eng op w) = [Event.native c m] ∧
        opResult jvm eng op w =
          JValue.response (decodeOut (returnShape c)
            (eng (w.trace ++ (opTrace jvm eng op w).take op.managedArgs.length) m c)) ∧
        (opResult jvm eng op w).code? =
          some ((eng (w.trace ++ (opTrace jvm eng op w).take op.managedArgs.length) m c).code
            (returnShape c))) := by
  have a1 : ∀ tr m c, (eng1 tr m c).err.code = 0 := fun tr m c => (h1 tr m c).1
  have a2 : ∀ tr m c, (eng1 tr m c).ret.err_code = 0 := fun tr m c => (h1 tr m c).2.1
  have a3 : ∀ tr m c, (eng1 tr m c).tx.err.code = 0 := fun tr m c => (h1 tr m c).2.2
  have b1 : ∀ tr m c, (eng2 tr m c).err.code ≠ 0 := fun tr m c => (h2 tr m c).1
  have b2 : ∀ tr m c, (eng2 tr m c).ret.err_code ≠ 0 := fun tr m c => (h2 tr m c).2.1
  have b3 : ∀ tr m c, (eng2 tr m c).tx.err.code ≠ 0 := fun tr m c => (h2 tr m c).2.2
  have key : ∀ op : Op, op.returnsResponse = true →
      (opResult jvm eng1 op w).code? = some 0 ∧
      (∃ k, k ≠ 0 ∧ (opResult jvm eng2 op w).code? = some k) := by
    intro op hop
    cases op <;> simp [Op.returnsResponse] at hop <;>
      simp [opTrace, opResult, dispatch, StateT.run, Functor.map, StateT.map, bind, StateT.bind,
      Java_ru_rt_restream_reindexer_binding_builtin_BuiltinAdapter_init,
      Java_ru_rt_restream_reindexer_binding_builtin_BuiltinAdapter_destroy,
      Java_ru_rt_restream_reindexer_binding_builtin_BuiltinAdapter_connect,
      Java_ru_rt_restream_reindexer_binding_builtin_BuiltinAdapter_openNamespace,
      Java_ru_rt_restream_reindexer_binding_builtin_BuiltinAdapter_closeNamespace,
      Java_ru_rt_restream_reindexer_binding_builtin_BuiltinAdapter_dropNamespace,
      Java_ru_rt_restream_reindexer_binding_builtin_BuiltinAdapter_addIndex,
      Java_ru_rt_restream_reindexer_binding_builtin_BuiltinAdapter_modifyItem,
      Java_ru_rt_restream_reindexer_binding_builtin_BuiltinAdapter_modifyItemTx,
      Java_ru_rt_restream_reindexer_binding_builtin_BuiltinAdapter_beginTx,
      Java_ru_rt_restream_reindexer_binding_builtin_BuiltinAdapter_commitTx,
      Java_ru_rt_restream_reindexer_binding_builtin_BuiltinAdapter_rollbackTx,
      Java_ru_rt_restream_reindexer_binding_builtin_BuiltinAdapter_selectQuery,
      Java_ru_rt_restream_reindexer_binding_builtin_BuiltinAdapter_deleteQuery,
      Java_ru_rt_restream_reindexer_binding_builtin_BuiltinAdapter_deleteQueryTx,
      Java_ru_rt_restream_reindexer_binding_builtin_BuiltinAdapter_updateQuery,
      Java_ru_rt_restream_reindexer_binding_builtin_BuiltinAdapter_updateQueryTx,
      Java_ru_rt_restream_reindexer_util_NativeUtils_getBytes,
      Java_ru_rt_restream_reindexer_util_NativeUtils_freeNativeBuffer,
      Java_ru_rt_restream_reindexer_binding_builtin_BuiltinAdapter_initServer,
      Java_ru_rt_restream_reindexer_binding_builtin_BuiltinAdapter_destroyServer,
      Java_ru_rt_restream_reindexer_binding_builtin_BuiltinAdapter_startServer,
      Java_ru_rt_restream_reindexer_binding_builtin_BuiltinAdapter_stopServer,
      Java_ru_rt_restream_reindexer_binding_builtin_BuiltinAdapter_isServerReady,
      Java_ru_rt_restream_reindexer_binding_builtin_BuiltinAdapter_getInstance,
      Java_ru_rt_restream_reindexer_binding_builtin_BuiltinAdapter_putMeta,
      Java_ru_rt_restream_reindexer_binding_builtin_BuiltinAdapter_getMeta,
      rx_string, rx_buffer, GetStringUTFChars, GetByteArrayElements, GetLongArrayElements, borrow,
      callNative, ReleaseStringUTFChars, ReleaseByteArrayElements, ReleaseLongArrayElements, emit,
      j_res_call, returnShape, j_res_errorM, j_res_retM, j_res_txM, get, getThe,
      MonadStateOf.get, StateT.get, set, StateT.set, pure, StateT.pure, modify, modifyGet,
      MonadStateOf.modifyGet, StateT.modifyGet, MonadState.get, MonadStateOf.set, JValue.code?, j_res_error, j_res_ret, j_res_tx, a1, a2, a3, b1, b2, b3]
  refine ⟨?_, ?_, ?_, ?_⟩
  · intro op hop
    obtain ⟨e1, k, hk, e2⟩ := key op hop
    refine ⟨e1, ⟨k, hk, e2⟩, ?_⟩
    intro h
    rw [h, e2] at e1
    exact hk (Option.some.inj e1)
  · intro rx ctxId timeout namespaceName key data
    exact ⟨rfl, rfl⟩
  · intro svc database user password hinst
    simp [opTrace, opResult, dispatch, StateT.run, Functor.map, StateT.map, bind, StateT.bind,
      Java_ru_rt_restream_reindexer_binding_builtin_BuiltinAdapter_init,
      Java_ru_rt_restream_reindexer_binding_builtin_BuiltinAdapter_destroy,
      Java_ru_rt_restream_reindexer_binding_builtin_BuiltinAdapter_connect,
      Java_ru_rt_restream_reindexer_binding_builtin_BuiltinAdapter_openNamespace,
      Java_ru_rt_restream_reindexer_binding_builtin_BuiltinAdapter_closeNamespace,
      Java_ru_rt_restream_reindexer_binding_builtin_BuiltinAdapter_dropNamespace,
      Java_ru_rt_restream_reindexer_binding_builtin_BuiltinAdapter_addIndex,
      Java_ru_rt_restream_reindexer_binding_builtin_BuiltinAdapter_modifyItem,
      Java_ru_rt_restream_reindexer_binding_builtin_BuiltinAdapter_modifyItemTx,
      Java_ru_rt_restream_reindexer_binding_builtin_BuiltinAdapter_beginTx,
      Java_ru_rt_restream_reindexer_binding_builtin_BuiltinAdapter_commitTx,
      Java_ru_rt_restream_reindexer_binding_builtin_BuiltinAdapter_rollbackTx,
      Java_ru_rt_restream_reindexer_binding_builtin_BuiltinAdapter_selectQuery,
      Java_ru_rt_restream_reindexer_binding_builtin_BuiltinAdapter_deleteQuery,
      Java_ru_rt_restream_reindexer_binding_builtin_BuiltinAdapter_deleteQueryTx,
      Java_ru_rt_restream_reindexer_binding_builtin_BuiltinAdapter_updateQuery,
      Java_ru_rt_restream_reindexer_binding_builtin_BuiltinAdapter_updateQueryTx,
      Java_ru_rt_restream_reindexer_util_NativeUtils_getBytes,
      Java_ru_rt_restream_reindexer_util_NativeUtils_freeNativeBuffer,
      Java_ru_rt_restream_reindexer_binding_builtin_BuiltinAdapter_initServer,
      Java_ru_rt_restream_reindexer_binding_builtin_BuiltinAdapter_destroyServer,
      Java_ru_rt_restream_reindexer_binding_builtin_BuiltinAdapter_startServer,
      Java_ru_rt_restream_reindexer_binding_builtin_BuiltinAdapter_stopServer,
      Java_ru_rt_restream_reindexer_binding_builtin_BuiltinAdapter_isServerReady,
      Java_ru_rt_restream_reindexer_binding_builtin_BuiltinAdapter_getInstance,
      Java_ru_rt_restream_reindexer_binding_builtin_BuiltinAdapter_putMeta,
      Java_ru_rt_restream_reindexer_binding_builtin_BuiltinAdapter_getMeta,
      rx_string, rx_buffer, GetStringUTFChars, GetByteArrayElements, GetLongArrayElements, borrow,
      callNative, ReleaseStringUTFChars, ReleaseByteArrayElements, ReleaseLongArrayElements, emit,
      j_res_call, returnShape, j_res_errorM, j_res_retM, j_res_txM, get, getThe,
      MonadStateOf.get, StateT.get, set, StateT.set, pure, StateT.pure, modify, modifyGet,
      MonadStateOf.modifyGet, StateT.modifyGet, MonadState.get, MonadStateOf.set, hinst]
  · intro eng op hop
    exact response_decodes jvm eng op w hop

theorem response_distinguishes_witness :
    (opResult jvmLE engOk (Op.getMeta 1 0 0 ⟨5, [110]⟩ ⟨6, [107]⟩) world0).code? = some 0 ∧
    opResult jvmLE engOk (Op.getMeta 1 0 0 ⟨5, [110]⟩ ⟨6, [107]⟩) world0 ≠
      opResult jvmLE engFail (Op.getMeta 1 0 0 ⟨5, [110]⟩ ⟨6, [107]⟩) world0 :=
  have h := (response_distinguishes jvmLE engOk engFail world0
    engOk_isOk engFail_isFailure).1
      (Op.getMeta 1 0 0 ⟨5, [110]⟩ ⟨6, [107]⟩) rfl
  ⟨h.1, h.2.2⟩

/-- C11 as stated fails: `putMeta` makes the native call `reindexer_put_meta`, and whether that
call reports the code 0 or the code 13 the value returned to the managed caller is the same,
nothing. -/
theorem putMeta_void_counterexample :
    nativesOf (opTrace jvmLE engFail (Op.putMeta 1 0 0 ⟨5, [110]⟩ ⟨6, [107]⟩ ⟨7, [118]⟩) world0) =
      [NativeCall.reindexer_put_meta 1 ⟨4096, 1⟩ ⟨4352, 1⟩ ⟨4608, 1⟩ ⟨0, 0⟩] ∧
    (engOk [] memErr
      (NativeCall.reindexer_put_meta 1 ⟨4096, 1⟩ ⟨4352, 1⟩ ⟨4608, 1⟩ ⟨0, 0⟩)).err.code = 0 ∧
    (engFail [] memErr
      (NativeCall.reindexer_put_meta 1 ⟨4096, 1⟩ ⟨4352, 1⟩ ⟨4608, 1⟩ ⟨0, 0⟩)).err.code = 13 ∧
    opResult jvmLE engOk (Op.putMeta 1 0 0 ⟨5, [110]⟩ ⟨6, [107]⟩ ⟨7, [118]⟩) world0 =
      JValue.void ∧
    opResult jvmLE engFail (Op.putMeta 1 0 0 ⟨5, [110]⟩ ⟨6, [107]⟩ ⟨7, [118]⟩) world0 =
      JValue.void := by
  decide

/-! ## Borrows that yield no pointer -/

/-- C12, as the code has it: the adapter never tests the pointer a borrow yields. In every
operation the pointers of the views handed to the native engine are exactly the pointers the
borrows yielded, a null pointer included, and the lengths of the views are the lengths of the
arguments, whatever the pointers. The operation returns its ordinary value: a `ReindexerResponse`
exactly for the methods declared to return one, and then the decoding of the outcome of its one
native call, with that outcome's error code. When every borrow yields the null pointer, the native
call is still made, with null in every view. -/
theorem views_passed_unchecked (jvm : JVM) (eng : Engine) (op : Op) (w : World) :
    ((nativesOf (opTrace jvm eng op w)).map NativeCall.viewPtrs).flatten =
      (getsOf (opTrace jvm eng op w)).map (fun g => g.2.2) ∧
    (opResult jvm eng op w).code?.isSome = op.returnsResponse ∧
    ((∀ k obj, jvm.pin k obj = 0) → op.managedArgs ≠ [] →
      (nativesOf (opTrace jvm eng op w)).map NativeCall.viewPtrs =
        [List.replicate op.managedArgs.length 0]) ∧
    ((nativesOf (opTrace jvm eng op w)).map NativeCall.viewLens).flatten = op.managedLens ∧
    (op.returnsResponse = true →
      ∃ c m, nativeEventsOf (opTrace jvm eng op w) = [Event.native c m] ∧
        opResult jvm eng op w =
          JValue.response (decodeOut (returnShape c)
            (eng (w.trace ++ (opTrace jvm eng op w).take op.managedArgs.length) m c)) ∧
        (opResult jvm eng op w).code? =
          some ((eng (w.trace ++ (opTrace jvm eng op w).take op.managedArgs.length) m c).code
            (returnShape c))) := by
  refine ⟨?_, ?_, ?_, view_lengths jvm eng op w, response_decodes jvm eng op w⟩
  · cases op <;> simp [opTrace, opResult, dispatch, StateT.run, Functor.map, StateT.map, bind, StateT.bind,
      Java_ru_rt_restream_reindexer_binding_builtin_BuiltinAdapter_init,
      Java_ru_rt_restream_reindexer_binding_builtin_BuiltinAdapter_destroy,
      Java_ru_rt_restream_reindexer_binding_builtin_BuiltinAdapter_connect,
      Java_ru_rt_restream_reindexer_binding_builtin_BuiltinAdapter_openNamespace,
      Java_ru_rt_restream_reindexer_binding_builtin_BuiltinAdapter_closeNamespace,
      Java_ru_rt_restream_reindexer_binding_builtin_BuiltinAdapter_dropNamespace,
      Java_ru_rt_restream_reindexer_binding_builtin_BuiltinAdapter_addIndex,
      Java_ru_rt_restream_reindexer_binding_builtin_BuiltinAdapter_modifyItem,
      Java_ru_rt_restream_reindexer_binding_builtin_BuiltinAdapter_modifyItemTx,
      Java_ru_rt_restream_reindexer_binding_builtin_BuiltinAdapter_beginTx,
      Java_ru_rt_restream_reindexer_binding_builtin_BuiltinAdapter_commitTx,
      Java_ru_rt_restream_reindexer_binding_builtin_BuiltinAdapter_rollbackTx,
      Java_ru_rt_restream_reindexer_binding_builtin_BuiltinAdapter_selectQuery,
      Java_ru_rt_restream_reindexer_binding_builtin_BuiltinAdapter_deleteQuery,
      Java_ru_rt_restream_reindexer_binding_builtin_BuiltinAdapter_deleteQueryTx,
      Java_ru_rt_restream_reindexer_binding_builtin_BuiltinAdapter_updateQuery,
      Java_ru_rt_restream_reindexer_binding_builtin_BuiltinAdapter_updateQueryTx,
      Java_ru_rt_restream_reindexer_util_NativeUtils_getBytes,
      Java_ru_rt_restream_reindexer_util_NativeUtils_freeNativeBuffer,
      Java_ru_rt_restream_reindexer_binding_builtin_BuiltinAdapter_initServer,
      Java_ru_rt_restream_reindexer_binding_builtin_BuiltinAdapter_destroyServer,
      Java_ru_rt_restream_reindexer_binding_builtin_BuiltinAdapter_startServer,
      Java_ru_rt_restream_reindexer_binding_builtin_BuiltinAdapter_stopServer,
      Java_ru_rt_restream_reindexer_binding_builtin_BuiltinAdapter_isServerReady,
      Java_ru_rt_restream_reindexer_binding_builtin_BuiltinAdapter_getInstance,
      Java_ru_rt_restream_reindexer_binding_builtin_BuiltinAdapter_putMeta,
      Java_ru_rt_restream_reindexer_binding_builtin_BuiltinAdapter_getMeta,
      rx_string, rx_buffer, GetStringUTFChars, GetByteArrayElements, GetLongArrayElements, borrow,
      callNative, ReleaseStringUTFChars, ReleaseByteArrayElements, ReleaseLongArrayElements, emit,
      j_res_call, returnShape, j_res_errorM, j_res_retM, j_res_txM, get, getThe,
      MonadStateOf.get, StateT.get, set, StateT.set, pure, StateT.pure, modify, modifyGet,
      MonadStateOf.modifyGet, StateT.modifyGet, MonadState.get, MonadStateOf.set, getsOf, nativesOf, NativeCall.viewPtrs]
  · cases op <;> simp [opTrace, opResult, dispatch, StateT.run, Functor.map, StateT.map, bind, StateT.bind,
      Java_ru_rt_restream_reindexer_binding_builtin_BuiltinAdapter_init,
      Java_ru_rt_restream_reindexer_binding_builtin_BuiltinAdapter_destroy,
      Java_ru_rt_restream_reindexer_binding_builtin_BuiltinAdapter_connect,
      Java_ru_rt_restream_reindexer_binding_builtin_BuiltinAdapter_openNamespace,
      Java_ru_rt_restream_reindexer_binding_builtin_BuiltinAdapter_closeNamespace,
      Java_ru_rt_restream_reindexer_binding_builtin_BuiltinAdapter_dropNamespace,
      Java_ru_rt_restream_reindexer_binding_builtin_BuiltinAdapter_addIndex,
      Java_ru_rt_restream_reindexer_binding_builtin_BuiltinAdapter_modifyItem,
      Java_ru_rt_restream_reindexer_binding_builtin_BuiltinAdapter_modifyItemTx,
      Java_ru_rt_restream_reindexer_binding_builtin_BuiltinAdapter_beginTx,
      Java_ru_rt_restream_reindexer_binding_builtin_BuiltinAdapter_commitTx,
      Java_ru_rt_restream_reindexer_binding_builtin_BuiltinAdapter_rollbackTx,
      Java_ru_rt_restream_reindexer_binding_builtin_BuiltinAdapter_selectQuery,
      Java_ru_rt_restream_reindexer_binding_builtin_BuiltinAdapter_deleteQuery,
      Java_ru_rt_restream_reindexer_binding_builtin_BuiltinAdapter_deleteQueryTx,
      Java_ru_rt_restream_reindexer_binding_builtin_BuiltinAdapter_updateQuery,
      Java_ru_rt_restream_reindexer_binding_builtin_BuiltinAdapter_updateQueryTx,
      Java_ru_rt_restream_reindexer_util_NativeUtils_getBytes,
      Java_ru_rt_restream_reindexer_util_NativeUtils_freeNativeBuffer,
      Java_ru_rt_restream_reindexer_binding_builtin_BuiltinAdapter_initServer,
      Java_ru_rt_restream_reindexer_binding_builtin_BuiltinAdapter_destroyServer,
      Java_ru_rt_restream_reindexer_binding_builtin_BuiltinAdapter_startServer,
      Java_ru_rt_restream_reindexer_binding_builtin_BuiltinAdapter_stopServer,
      Java_ru_rt_restream_reindexer_binding_builtin_BuiltinAdapter_isServerReady,
      Java_ru_rt_restream_reindexer_binding_builtin_BuiltinAdapter_getInstance,
      Java_ru_rt_restream_reindexer_binding_builtin_BuiltinAdapter_putMeta,
      Java_ru_rt_restream_reindexer_binding_builtin_BuiltinAdapter_getMeta,
      rx_string, rx_buffer, GetStringUTFChars, GetByteArrayElements, GetLongArrayElements, borrow,
      callNative, ReleaseStringUTFChars, ReleaseByteArrayElements, ReleaseLongArrayElements, emit,
      j_res_call, returnShape, j_res_errorM, j_res_retM, j_res_txM, get, getThe,
      MonadStateOf.get, StateT.get, set, StateT.set, pure, StateT.pure, modify, modifyGet,
      MonadStateOf.modifyGet, StateT.modifyGet, MonadState.get, MonadStateOf.set, JValue.code?, Op.returnsResponse]
  · intro hnull
    cases op <;> simp [opTrace, opResult, dispatch, StateT.run, Functor.map, StateT.map, bind, StateT.bind,
      Java_ru_rt_restream_reindexer_binding_builtin_BuiltinAdapter_init,
      Java_ru_rt_restream_reindexer_binding_builtin_BuiltinAdapter_destroy,
      Java_ru_rt_restream_reindexer_binding_builtin_BuiltinAdapter_connect,
      Java_ru_rt_restream_reindexer_binding_builtin_BuiltinAdapter_openNamespace,
      Java_ru_rt_restream_reindexer_binding_builtin_BuiltinAdapter_closeNamespace,
      Java_ru_rt_restream_reindexer_binding_builtin_BuiltinAdapter_dropNamespace,
      Java_ru_rt_restream_reindexer_binding_builtin_BuiltinAdapter_addIndex,
      Java_ru_rt_restream_reindexer_binding_builtin_BuiltinAdapter_modifyItem,
      Java_ru_rt_restream_reindexer_binding_builtin_BuiltinAdapter_modifyItemTx,
      Java_ru_rt_restream_reindexer_binding_builtin_BuiltinAdapter_beginTx,
      Java_ru_rt_restream_reindexer_binding_builtin_BuiltinAdapter_commitTx,
      Java_ru_rt_restream_reindexer_binding_builtin_BuiltinAdapter_rollbackTx,
      Java_ru_rt_restream_reindexer_binding_builtin_BuiltinAdapter_selectQuery,
      Java_ru_rt_restream_reindexer_binding_builtin_BuiltinAdapter_deleteQuery,
      Java_ru_rt_restream_reindexer_binding_builtin_BuiltinAdapter_deleteQueryTx,
      Java_ru_rt_restream_reindexer_binding_builtin_BuiltinAdapter_updateQuery,
      Java_ru_rt_restream_reindexer_binding_builtin_BuiltinAdapter_updateQueryTx,
      Java_ru_rt_restream_reindexer_util_NativeUtils_getBytes,
      Java_ru_rt_restream_reindexer_util_NativeUtils_freeNativeBuffer,
      Java_ru_rt_restream_reindexer_binding_builtin_BuiltinAdapter_initServer,
      Java_ru_rt_restream_reindexer_binding_builtin_BuiltinAdapter_destroyServer,
      Java_ru_rt_restream_reindexer_binding_builtin_BuiltinAdapter_startServer,
      Java_ru_rt_restream_reindexer_binding_builtin_BuiltinAdapter_stopServer,
      Java_ru_rt_restream_reindexer_binding_builtin_BuiltinAdapter_isServerReady,
      Java_ru_rt_restream_reindexer_binding_builtin_BuiltinAdapter_getInstance,
      Java_ru_rt_restream_reindexer_binding_builtin_BuiltinAdapter_putMeta,
      Java_ru_rt_restream_reindexer_binding_builtin_BuiltinAdapter_getMeta,
      rx_string, rx_buffer, GetStringUTFChars, GetByteArrayElements, GetLongArrayElements, borrow,
      callNative, ReleaseStringUTFChars, ReleaseByteArrayElements, ReleaseLongArrayElements, emit,
      j_res_call, returnShape, j_res_errorM, j_res_retM, j_res_txM, get, getThe,
      MonadStateOf.get, StateT.get, set, StateT.set, pure, StateT.pure, modify, modifyGet,
      MonadStateOf.modifyGet, StateT.modifyGet, MonadState.get, MonadStateOf.set, getsOf, nativesOf, NativeCall.viewPtrs, Op.managedArgs, hnull, List.replicate]

theorem views_passed_unchecked_witness :
    (nativesOf (opTrace { pin := fun _ _ => 0, bigEndian := false } engOk
        (Op.modifyItem 1 0 0 ⟨6, [1]⟩ ⟨7, [2, 3]⟩) world0)).map NativeCall.viewPtrs = [[0, 0]] ∧
    ((nativesOf (opTrace { pin := fun _ _ => 0, bigEndian := false } engOk
        (Op.modifyItem 1 0 0 ⟨6, [1]⟩ ⟨7, [2, 3]⟩) world0)).map NativeCall.viewLens).flatten =
      [1, 2] ∧
    (opResult { pin := fun _ _ => 0, bigEndian := false } engOk
        (Op.modifyItem 1 0 0 ⟨6, [1]⟩ ⟨7, [2, 3]⟩) world0).code? = some 0 :=
  have h := views_passed_unchecked { pin := fun _ _ => 0, bigEndian := false } engOk
    (Op.modifyItem 1 0 0 ⟨6, [1]⟩ ⟨7, [2, 3]⟩) world0
  ⟨h.2.2.1 (fun _ _ => rfl) (by decide), h.2.2.2.1,
   (h.2.2.2.2 rfl).elim fun _ hc => hc.elim fun _ hm =>
     hm.2.2.trans (congrArg some (engOk_code _ _ _ _))⟩

/-- C12 as stated fails: when the borrow of the second array of `modifyItem` yields no pointer,
the native engine is called with a null data view of length 2 and the operation returns the
ordinary success response. -/
theorem failed_borrow_counterexample :
    getsOf (opTrace jvmSecondFails engOk (Op.modifyItem 1 0 0 ⟨6, [1]⟩ ⟨7, [2, 3]⟩) world0) =
      [(BorrowKind.byteElems, 6, 4096), (BorrowKind.byteElems, 7, 0)] ∧
    nativesOf (opTrace jvmSecondFails engOk (Op.modifyItem 1 0 0 ⟨6, [1]⟩ ⟨7, [2, 3]⟩) world0) =
      [NativeCall.reindexer_modify_item_packed 1 ⟨4096, 1⟩ ⟨0, 2⟩ ⟨0, 0⟩] ∧
    opResult jvmSecondFails engOk (Op.modifyItem 1 0 0 ⟨6, [1]⟩ ⟨7, [2, 3]⟩) world0 =
      JValue.response ⟨0, none, [some (JObject.long 4096), some (JObject.bytes [])]⟩ := by
  decide

/-! ## Codes and messages -/

/-- C13: for each of the three overloads of `j_res` and every native error code, zero, positive
or negative, the code of the response is the native code, and a message the response carries is
the NUL-terminated text at the native message pointer (`what`, and `out.data` for a data result),
unchanged. -/
theorem codes_and_messages_pass_through (m : Mem) (error : reindexer_error) (ret : reindexer_ret)
    (txret : reindexer_tx_ret) :
    ((j_res_error m error).code = error.code ∧
      (∀ t, (j_res_error m error).errorMessage = some t → t = cstr m error.what) ∧
      (∀ t s, (j_res_error m error).errorMessage = some t → PointsToText m error.what s →
        t = s)) ∧
    ((j_res_ret m ret).code = ret.err_code ∧
      (∀ t, (j_res_ret m ret).errorMessage = some t → t = cstr m ret.out.data) ∧
      (∀ t s, (j_res_ret m ret).errorMessage = some t → PointsToText m ret.out.data s →
        t = s)) ∧
    ((j_res_tx m txret).code = txret.err.code ∧
      (∀ t, (j_res_tx m txret).errorMessage = some t → t = cstr m txret.err.what) ∧
      (∀ t s, (j_res_tx m txret).errorMessage = some t → PointsToText m txret.err.what s →
        t = s)) := by
  have key : ∀ (p : Nat) (t : List Nat), NewStringUTF m p = some t → t = cstr m p := by
    intro p t h
    unfold NewStringUTF at h
    split at h
    · exact absurd h (by simp)
    · exact (Option.some.inj h).symm
  have key2 : ∀ (p : Nat) (t s : List Nat), NewStringUTF m p = some t → PointsToText m p s →
      t = s := by
    intro p t s h hs
    rw [key p t h]
    exact cstr_of_text m p s hs
  refine ⟨⟨rfl, ?_, ?_⟩, ⟨rfl, ?_, ?_⟩, ⟨rfl, ?_, ?_⟩⟩
  · intro t h
    exact key _ t h
  · intro t s h hs
    exact key2 _ t s h hs
  · intro t h
    by_cases hc : ret.err_code = 0
    · simp [j_res_ret, hc] at h
    · simp only [j_res_ret, hc, ne_eq, not_false_eq_true, if_true] at h
      exact key _ t h
  · intro t s h hs
    by_cases hc : ret.err_code = 0
    · simp [j_res_ret, hc] at h
    · simp only [j_res_ret, hc, ne_eq, not_false_eq_true, if_true] at h
      exact key2 _ t s h hs
  · intro t h
    by_cases hc : txret.err.code = 0
    · simp [j_res_tx, hc] at h
    · simp only [j_res_tx, hc, ne_eq, not_false_eq_true, if_true] at h
      exact key _ t h
  · intro t s h hs
    by_cases hc : txret.err.code = 0
    · simp [j_res_tx, hc] at h
    · simp only [j_res_tx, hc, ne_eq, not_false_eq_true, if_true] at h
      exact key2 _ t s h hs

theorem codes_and_messages_pass_through_witness :
    (j_res_error memErr ⟨16, -5⟩).code = -5 ∧
    (j_res_ret memErr ⟨⟨0, 16, 0⟩, 7⟩).code = 7 ∧
    (j_res_tx memErr ⟨0, ⟨16, 0⟩⟩).code = 0 ∧
    (∀ t, (j_res_error memErr ⟨16, -5⟩).errorMessage = some t → t = [101, 114, 114]) :=
  have h := codes_and_messages_pass_through memErr ⟨16, -5⟩ ⟨⟨0, 16, 0⟩, 7⟩ ⟨0, ⟨16, 0⟩⟩
  ⟨h.1.1, h.2.1.1, h.2.2.1, fun t ht => h.1.2.2 t [101, 114, 114] ht memErr_text⟩

/-! ## The context encoder -/

/-- C14: `rx_ctx` is a total function; for every signed 64-bit context id and every timeout the
record has `exec_timeout` equal to the timeout (0 stays 0) and `ctx_id` equal to the context id
modulo `2^64`, an unsigned 64-bit value; converting `ctx_id` back to a signed 64-bit number gives
the context id, and two context ids with the same `ctx_id` are equal. -/
theorem rx_ctx_encoding (ctxId timeout : Int) (hlo : -2 ^ 63 ≤ ctxId) (hhi : ctxId < 2 ^ 63) :
    (rx_ctx ctxId timeout).exec_timeout = timeout ∧
    (rx_ctx ctxId 0).exec_timeout = 0 ∧
    ((rx_ctx ctxId timeout).ctx_id : Int) = ctxId % 2 ^ 64 ∧
    (rx_ctx ctxId timeout).ctx_id < 2 ^ 64 ∧
    toJlong (rx_ctx ctxId timeout).ctx_id = ctxId ∧
    (∀ ctxId' timeout' : Int, -2 ^ 63 ≤ ctxId' → ctxId' < 2 ^ 63 →
      (rx_ctx ctxId' timeout').ctx_id = (rx_ctx ctxId timeout).ctx_id → ctxId' = ctxId) := by
  refine ⟨rfl, rfl, ?_, ?_, toJlong_toUintptr ctxId hlo hhi, ?_⟩
  · simp only [rx_ctx, toUintptr]
    omega
  · simp only [rx_ctx, toUintptr]
    omega
  · intro ctxId' timeout' hlo' hhi' h
    simp only [rx_ctx] at h
    rw [← toJlong_toUintptr ctxId' hlo' hhi', ← toJlong_toUintptr ctxId hlo hhi, h]

theorem rx_ctx_encoding_witness :
    (rx_ctx (-1) 0).exec_timeout = 0 ∧
    ((rx_ctx (-1) 250).ctx_id : Int) = (-1) % 2 ^ 64 ∧
    toJlong (rx_ctx (-1) 250).ctx_id = -1 :=
  have h := rx_ctx_encoding (-1) 250 (by decide) (by decide)
  ⟨h.2.1, h.2.2.1, h.2.2.2.2.1⟩

/-! ## The meta round trip -/

/-- C15, against the modelled meta store: when every borrow yields a pointer and the buffers
borrowed in one operation do not overlap, `putMeta(ns, k, v)` followed by `getMeta(ns, k)` on the
same connection returns nothing for the first call and, for the second, a success response with
no message whose payload is the bytes of `v`, whatever the state before, the contexts and the
address at which the engine places the value. -/
theorem putMeta_getMeta_roundtrip (jvm : JVM) (addr : Nat) (w : World)
    (rx ctxId timeout ctxId2 timeout2 : Int) (ns k v : JString)
    (h0 : jvm.pin w.trace.length ns.ref ≠ 0)
    (h1 : jvm.pin (w.trace.length + 1) k.ref ≠ 0)
    (h2 : jvm.pin (w.trace.length + 2) v.ref ≠ 0)
    (h7 : jvm.pin (w.trace.length + 7) ns.ref ≠ 0)
    (h8 : jvm.pin (w.trace.length + 8) k.ref ≠ 0)
    (a01 : Apart (jvm.pin w.trace.length ns.ref) ns.utf.length
      (jvm.pin (w.trace.length + 1) k.ref) (k.utf.length + 1))
    (a02 : Apart (jvm.pin w.trace.length ns.ref) ns.utf.length
      (jvm.pin (w.trace.length + 2) v.ref) (v.utf.length + 1))
    (a12 : Apart (jvm.pin (w.trace.length + 1) k.ref) k.utf.length
      (jvm.pin (w.trace.length + 2) v.ref) (v.utf.length + 1))
    (a78 : Apart (jvm.pin (w.trace.length + 7) ns.ref) ns.utf.length
      (jvm.pin (w.trace.length + 8) k.ref) (k.utf.length + 1)) :
    ((runAll jvm (metaEngine addr)
        [Op.putMeta rx ctxId timeout ns k v, Op.getMeta rx ctxId2 timeout2 ns k]).run w).1 =
      [JValue.void,
       JValue.response ⟨0, none, [some (JObject.long 0), some (JObject.bytes v.utf)]⟩] := by
  simp [runAll, opTrace, opResult, dispatch, StateT.run, Functor.map, StateT.map, bind, StateT.bind,
      Java_ru_rt_restream_reindexer_binding_builtin_BuiltinAdapter_init,
      Java_ru_rt_restream_reindexer_binding_builtin_BuiltinAdapter_destroy,
      Java_ru_rt_restream_reindexer_binding_builtin_BuiltinAdapter_connect,
      Java_ru_rt_restream_reindexer_binding_builtin_BuiltinAdapter_openNamespace,
      Java_ru_rt_restream_reindexer_binding_builtin_BuiltinAdapter_closeNamespace,
      Java_ru_rt_restream_reindexer_binding_builtin_BuiltinAdapter_dropNamespace,
      Java_ru_rt_restream_reindexer_binding_builtin_BuiltinAdapter_addIndex,
      Java_ru_rt_restream_reindexer_binding_builtin_BuiltinAdapter_modifyItem,
      Java_ru_rt_restream_reindexer_binding_builtin_BuiltinAdapter_modifyItemTx,
      Java_ru_rt_restream_reindexer_binding_builtin_BuiltinAdapter_beginTx,
      Java_ru_rt_restream_reindexer_binding_builtin_BuiltinAdapter_commitTx,
      Java_ru_rt_restream_reindexer_binding_builtin_BuiltinAdapter_rollbackTx,
      Java_ru_rt_restream_reindexer_binding_builtin_BuiltinAdapter_selectQuery,
      Java_ru_rt_restream_reindexer_binding_builtin_BuiltinAdapter_deleteQuery,
      Java_ru_rt_restream_reindexer_binding_builtin_BuiltinAdapter_deleteQueryTx,
      Java_ru_rt_restream_reindexer_binding_builtin_BuiltinAdapter_updateQuery,
      Java_ru_rt_restream_reindexer_binding_builtin_BuiltinAdapter_updateQueryTx,
      Java_ru_rt_restream_reindexer_util_NativeUtils_getBytes,
      Java_ru_rt_restream_reindexer_util_NativeUtils_freeNativeBuffer,
      Java_ru_rt_restream_reindexer_binding_builtin_BuiltinAdapter_initServer,
      Java_ru_rt_restream_reindexer_binding_builtin_BuiltinAdapter_destroyServer,
      Java_ru_rt_restream_reindexer_binding_builtin_BuiltinAdapter_startServer,
      Java_ru_rt_restream_reindexer_binding_builtin_BuiltinAdapter_stopServer,
      Java_ru_rt_restream_reindexer_binding_builtin_BuiltinAdapter_isServerReady,
      Java_ru_rt_restream_reindexer_binding_builtin_BuiltinAdapter_getInstance,
      Java_ru_rt_restream_reindexer_binding_builtin_BuiltinAdapter_putMeta,
      Java_ru_rt_restream_reindexer_binding_builtin_BuiltinAdapter_getMeta,
      rx_string, rx_buffer, GetStringUTFChars, GetByteArrayElements, GetLongArrayElements, borrow,
      callNative, ReleaseStringUTFChars, ReleaseByteArrayElements, ReleaseLongArrayElements, emit,
      j_res_call, returnShape, j_res_errorM, j_res_retM, j_res_txM, get, getThe,
      MonadStateOf.get, StateT.get, set, StateT.set, pure, StateT.pure, modify, modifyGet,
      MonadStateOf.modifyGet, StateT.modifyGet, MonadState.get, MonadStateOf.set, h0, h1, h2, h7, h8, metaEngine, metaLookup_append, metaLookup, okOut,
    GetStringUTFLength, readView, readBytes_writeBytes_apart, readBytes_writeBytes_prefix,
    readBytes_writeBytes_full, a01, a02, a12, a78, j_res_ret, jlong_object, NewByteArrayRegion,
    toJlong]

theorem putMeta_getMeta_roundtrip_witness :
    ((runAll jvmLE (metaEngine 64)
        [Op.putMeta 1 0 0 ⟨5, [110]⟩ ⟨6, [107]⟩ ⟨7, [118, 49]⟩,
         Op.getMeta 1 0 0 ⟨5, [110]⟩ ⟨6, [107]⟩]).run world0).1 =
      [JValue.void,
       JValue.response ⟨0, none, [some (JObject.long 0), some (JObject.bytes [118, 49])]⟩] :=
  putMeta_getMeta_roundtrip jvmLE 64 world0 1 0 0 0 0 ⟨5, [110]⟩ ⟨6, [107]⟩ ⟨7, [118, 49]⟩
    (by decide) (by decide) (by decide) (by decide) (by decide)
    (by unfold Apart; decide) (by unfold Apart; decide) (by unfold Apart; decide)
    (by unfold Apart; decide)

theorem metaEngine_unset_key :
    ((runAll jvmLE (metaEngine 64)
        [Op.getMeta 1 0 0 ⟨5, [110]⟩ ⟨6, [107]⟩]).run world0).1 =
      [JValue.response ⟨13, none, [none, none]⟩] ∧
    ((runAll jvmLE (metaEngine 64)
        [Op.putMeta 1 0 0 ⟨5, [110]⟩ ⟨6, [107]⟩ ⟨7, [118, 49]⟩,
         Op.getMeta 1 0 0 ⟨5, [110]⟩ ⟨8, [120]⟩]).run world0).1 =
      [JValue.void, JValue.response ⟨13, none, [none, none]⟩] ∧
    ((runAll jvmLE (metaEngine 64)
        [Op.putMeta 1 0 0 ⟨5, [110]⟩ ⟨6, [107]⟩ ⟨7, [118, 49]⟩,
         Op.getMeta 2 0 0 ⟨5, [110]⟩ ⟨6, [107]⟩]).run world0).1 =
      [JValue.void, JValue.response ⟨13, none, [none, none]⟩] := by
  decide

/-! ## Storage options of `openNamespace` -/

/-- C16: for every triple of booleans, `openNamespace` makes one native call,
`reindexer_open_namespace`, with the connection handle, a storage-options bundle whose three
flags are the three arguments, the context `rx_ctx ctxId timeout`, and a view of the namespace
name: its length, and a pointer at which the memory of the call holds the bytes of the name
followed by NUL. It returns the status-only decoding of what that call returned. -/
theorem openNamespace_passes_options (jvm : JVM) (eng : Engine) (w : World)
    (rx ctxId timeout : Int) (namespaceName : JString)
    (enabled dropOnFileFormatError createIfMissing : Bool)
    (hpin : jvm.pin w.trace.length namespaceName.ref ≠ 0) :
    nativeEventsOf
        (opTrace jvm eng (Op.openNamespace rx ctxId timeout namespaceName enabled
          dropOnFileFormatError createIfMissing) w) =
      [Event.native
        (NativeCall.reindexer_open_namespace rx
          ⟨jvm.pin w.trace.length namespaceName.ref, namespaceName.utf.length⟩
          ⟨enabled, dropOnFileFormatError, createIfMissing⟩ ⟨toUintptr ctxId, timeout⟩)
        (writeBytes w.mem (jvm.pin w.trace.length namespaceName.ref) (namespaceName.utf ++ [0]))] ∧
    readBytes
        (writeBytes w.mem (jvm.pin w.trace.length namespaceName.ref) (namespaceName.utf ++ [0]))
        (jvm.pin w.trace.length namespaceName.ref) namespaceName.utf.length =
      namespaceName.utf ∧
    writeBytes w.mem (jvm.pin w.trace.length namespaceName.ref) (namespaceName.utf ++ [0])
        (jvm.pin w.trace.length namespaceName.ref + namespaceName.utf.length) = 0 ∧
    opResult jvm eng (Op.openNamespace rx ctxId timeout namespaceName enabled
        dropOnFileFormatError createIfMissing) w =
      JValue.response (j_res_error
        (eng (w.trace ++
            [Event.get BorrowKind.utfChars namespaceName.ref
              (jvm.pin w.trace.length namespaceName.ref)])
          (writeBytes w.mem (jvm.pin w.trace.length namespaceName.ref)
            (namespaceName.utf ++ [0]))
          (NativeCall.reindexer_open_namespace rx
            ⟨jvm.pin w.trace.length namespaceName.ref, namespaceName.utf.length⟩
            ⟨enabled, dropOnFileFormatError, createIfMissing⟩ ⟨toUintptr ctxId, timeout⟩)).mem
        (eng (w.trace ++
            [Event.get BorrowKind.utfChars namespaceName.ref
              (jvm.pin w.trace.length namespaceName.ref)])
          (writeBytes w.mem (jvm.pin w.trace.length namespaceName.ref)
            (namespaceName.utf ++ [0]))
          (NativeCall.reindexer_open_namespace rx
            ⟨jvm.pin w.trace.length namespaceName.ref, namespaceName.utf.length⟩
            ⟨enabled, dropOnFileFormatError, createIfMissing⟩ ⟨toUintptr ctxId, timeout⟩)).err) := by
  refine ⟨?_, readBytes_writeBytes_prefix _ _ _ _, writeBytes_terminator _ _ _, ?_⟩
  · simp [opTrace, opResult, dispatch, StateT.run, Functor.map, StateT.map, bind, StateT.bind,
      Java_ru_rt_restream_reindexer_binding_builtin_BuiltinAdapter_init,
      Java_ru_rt_restream_reindexer_binding_builtin_BuiltinAdapter_destroy,
      Java_ru_rt_restream_reindexer_binding_builtin_BuiltinAdapter_connect,
      Java_ru_rt_restream_reindexer_binding_builtin_BuiltinAdapter_openNamespace,
      Java_ru_rt_restream_reindexer_binding_builtin_BuiltinAdapter_closeNamespace,
      Java_ru_rt_restream_reindexer_binding_builtin_BuiltinAdapter_dropNamespace,
      Java_ru_rt_restream_reindexer_binding_builtin_BuiltinAdapter_addIndex,
      Java_ru_rt_restream_reindexer_binding_builtin_BuiltinAdapter_modifyItem,
      Java_ru_rt_restream_reindexer_binding_builtin_BuiltinAdapter_modifyItemTx,
      Java_ru_rt_restream_reindexer_binding_builtin_BuiltinAdapter_beginTx,
      Java_ru_rt_restream_reindexer_binding_builtin_BuiltinAdapter_commitTx,
      Java_ru_rt_restream_reindexer_binding_builtin_BuiltinAdapter_rollbackTx,
      Java_ru_rt_restream_reindexer_binding_builtin_BuiltinAdapter_selectQuery,
      Java_ru_rt_restream_reindexer_binding_builtin_BuiltinAdapter_deleteQuery,
      Java_ru_rt_restream_reindexer_binding_builtin_BuiltinAdapter_deleteQueryTx,
      Java_ru_rt_restream_reindexer_binding_builtin_BuiltinAdapter_updateQuery,
      Java_ru_rt_restream_reindexer_binding_builtin_BuiltinAdapter_updateQueryTx,
      Java_ru_rt_restream_reindexer_util_NativeUtils_getBytes,
      Java_ru_rt_restream_reindexer_util_NativeUtils_freeNativeBuffer,
      Java_ru_rt_restream_reindexer_binding_builtin_BuiltinAdapter_initServer,
      Java_ru_rt_restream_reindexer_binding_builtin_BuiltinAdapter_destroyServer,
      Java_ru_rt_restream_reindexer_binding_builtin_BuiltinAdapter_startServer,
      Java_ru_rt_restream_reindexer_binding_builtin_BuiltinAdapter_stopServer,
      Java_ru_rt_restream_reindexer_binding_builtin_BuiltinAdapter_isServerReady,
      Java_ru_rt_restream_reindexer_binding_builtin_BuiltinAdapter_getInstance,
      Java_ru_rt_restream_reindexer_binding_builtin_BuiltinAdapter_putMeta,
      Java_ru_rt_restream_reindexer_binding_builtin_BuiltinAdapter_getMeta,
      rx_string, rx_buffer, GetStringUTFChars, GetByteArrayElements, GetLongArrayElements, borrow,
      callNative, ReleaseStringUTFChars, ReleaseByteArrayElements, ReleaseLongArrayElements, emit,
      j_res_call, returnShape, j_res_errorM, j_res_retM, j_res_txM, get, getThe,
      MonadStateOf.get, StateT.get, set, StateT.set, pure, StateT.pure, modify, modifyGet,
      MonadStateOf.modifyGet, StateT.modifyGet, MonadState.get, MonadStateOf.set, nativeEventsOf, hpin, StorageOpts.Enabled,
      StorageOpts.DropOnFileFormatError, StorageOpts.CreateIfMissing, rx_ctx, GetStringUTFLength]
  · simp [opTrace, opResult, dispatch, StateT.run, Functor.map, StateT.map, bind, StateT.bind,
      Java_ru_rt_restream_reindexer_binding_builtin_BuiltinAdapter_init,
      Java_ru_rt_restream_reindexer_binding_builtin_BuiltinAdapter_destroy,
      Java_ru_rt_restream_reindexer_binding_builtin_BuiltinAdapter_connect,
      Java_ru_rt_restream_reindexer_binding_builtin_BuiltinAdapter_openNamespace,
      Java_ru_rt_restream_reindexer_binding_builtin_BuiltinAdapter_closeNamespace,
      Java_ru_rt_restream_reindexer_binding_builtin_BuiltinAdapter_dropNamespace,
      Java_ru_rt_restream_reindexer_binding_builtin_BuiltinAdapter_addIndex,
      Java_ru_rt_restream_reindexer_binding_builtin_BuiltinAdapter_modifyItem,
      Java_ru_rt_restream_reindexer_binding_builtin_BuiltinAdapter_modifyItemTx,
      Java_ru_rt_restream_reindexer_binding_builtin_BuiltinAdapter_beginTx,
      Java_ru_rt_restream_reindexer_binding_builtin_BuiltinAdapter_commitTx,
      Java_ru_rt_restream_reindexer_binding_builtin_BuiltinAdapter_rollbackTx,
      Java_ru_rt_restream_reindexer_binding_builtin_BuiltinAdapter_selectQuery,
      Java_ru_rt_restream_reindexer_binding_builtin_BuiltinAdapter_deleteQuery,
      Java_ru_rt_restream_reindexer_binding_builtin_BuiltinAdapter_deleteQueryTx,
      Java_ru_rt_restream_reindexer_binding_builtin_BuiltinAdapter_updateQuery,
      Java_ru_rt_restream_reindexer_binding_builtin_BuiltinAdapter_updateQueryTx,
      Java_ru_rt_restream_reindexer_util_NativeUtils_getBytes,
      Java_ru_rt_restream_reindexer_util_NativeUtils_freeNativeBuffer,
      Java_ru_rt_restream_reindexer_binding_builtin_BuiltinAdapter_initServer,
      Java_ru_rt_restream_reindexer_binding_builtin_BuiltinAdapter_destroyServer,
      Java_ru_rt_restream_reindexer_binding_builtin_BuiltinAdapter_startServer,
      Java_ru_rt_restream_reindexer_binding_builtin_BuiltinAdapter_stopServer,
      Java_ru_rt_restream_reindexer_binding_builtin_BuiltinAdapter_isServerReady,
      Java_ru_rt_restream_reindexer_binding_builtin_BuiltinAdapter_getInstance,
      Java_ru_rt_restream_reindexer_binding_builtin_BuiltinAdapter_putMeta,
      Java_ru_rt_restream_reindexer_binding_builtin_BuiltinAdapter_getMeta,
      rx_string, rx_buffer, GetStringUTFChars, GetByteArrayElements, GetLongArrayElements, borrow,
      callNative, ReleaseStringUTFChars, ReleaseByteArrayElements, ReleaseLongArrayElements, emit,
      j_res_call, returnShape, j_res_errorM, j_res_retM, j_res_txM, get, getThe,
      MonadStateOf.get, StateT.get, set, StateT.set, pure, StateT.pure, modify, modifyGet,
      MonadStateOf.modifyGet, StateT.modifyGet, MonadState.get, MonadStateOf.set, hpin, StorageOpts.Enabled,
      StorageOpts.DropOnFileFormatError, StorageOpts.CreateIfMissing, rx_ctx, GetStringUTFLength]

theorem openNamespace_passes_options_witness :
    nativesOf (opTrace jvmLE engOk (Op.openNamespace 1 3 250 ⟨5, [110, 115]⟩ true false true)
        world0) =
      [NativeCall.reindexer_open_namespace 1 ⟨4096, 2⟩ ⟨true, false, true⟩ ⟨3, 250⟩] ∧
    opResult jvmLE engOk (Op.openNamespace 1 3 250 ⟨5, [110, 115]⟩ true false true) world0 =
      JValue.response ⟨0, none, []⟩ :=
  have h := openNamespace_passes_options jvmLE engOk world0 1 3 250 ⟨5, [110, 115]⟩ true false
    true (by decide)
  ⟨by decide, h.2.2.2.trans (by decide)⟩

/-! ## The argument list of a response -/

/-- C17: the argument list of a response has a length fixed by the overload of `j_res` alone: 0
for a status-only result, 2 for a data result, 1 for a transaction result. For a data result slot
0 is the result-set handle and slot 1 the payload, for a transaction result slot 0 is the
transaction handle; with a nonzero error code the slots are there and hold `null`. -/
theorem arguments_shape (m : Mem) (error : reindexer_error) (ret : reindexer_ret)
    (txret : reindexer_tx_ret) :
    (j_res_error m error).arguments.length = 0 ∧
    (j_res_ret m ret).arguments.length = 2 ∧
    (j_res_tx m txret).arguments.length = 1 ∧
    (ret.err_code ≠ 0 → (j_res_ret m ret).arguments = [none, none]) ∧
    (ret.err_code = 0 → (j_res_ret m ret).arguments =
      [some (JObject.long (toJlong ret.out.results_ptr)),
       some (JObject.bytes (readBytes m ret.out.data ret.out.len))]) ∧
    (txret.err.code ≠ 0 → (j_res_tx m txret).arguments = [none]) ∧
    (txret.err.code = 0 →
      (j_res_tx m txret).arguments = [some (JObject.long (toJlong txret.tx_id))]) := by
  refine ⟨rfl, rfl, rfl, ?_, ?_, ?_, ?_⟩
  · intro h
    simp [j_res_ret, h]
  · intro h
    simp [j_res_ret, h, jlong_object, NewByteArrayRegion]
  · intro h
    simp [j_res_tx, h]
  · intro h
    simp [j_res_tx, h, jlong_object]

theorem arguments_shape_witness :
    (j_res_ret memErr ⟨⟨4096, 16, 2⟩, 13⟩).arguments = [none, none] ∧
    (j_res_ret memErr ⟨⟨4096, 16, 2⟩, 0⟩).arguments =
      [some (JObject.long 4096), some (JObject.bytes [101, 114])] ∧
    (j_res_tx memErr ⟨77, ⟨16, 13⟩⟩).arguments = [none] :=
  have h := arguments_shape memErr ⟨0, 0⟩ ⟨⟨4096, 16, 2⟩, 13⟩ ⟨77, ⟨16, 13⟩⟩
  have h0 := arguments_shape memErr ⟨0, 0⟩ ⟨⟨4096, 16, 2⟩, 0⟩ ⟨77, ⟨16, 13⟩⟩
  ⟨h.2.2.2.1 (by decide), (h0.2.2.2.2.1 rfl).trans (by decide), h.2.2.2.2.2.1 (by decide)⟩

/-! ## The handle returned by `getInstance` -/

/-- C18, as the code has it: `getInstance` makes one native call, `get_reindexer_instance` with
the server handle and the three views, and returns what that call stored through the
out-parameter, converted to a signed 64-bit number, and 0 when it stored nothing. The value
stored is returned as it is when it is below `2^63`. Replacing the error (code and message) of
every native outcome leaves the returned value unchanged. -/
theorem getInstance_returns_stored (jvm : JVM) (eng : Engine) (w : World) (svc : Int)
    (database user password : JString) :
    (∃ m dbName dbUser dbPass,
      nativeEventsOf (opTrace jvm eng (Op.getInstance svc database user password) w) =
        [Event.native (NativeCall.get_reindexer_instance svc dbName dbUser dbPass) m] ∧
      opResult jvm eng (Op.getInstance svc database user password) w =
        JValue.long (toJlong
          ((eng (w.trace ++ (opTrace jvm eng (Op.getInstance svc database user password) w).take 3)
            m (NativeCall.get_reindexer_instance svc dbName dbUser dbPass)).inst.getD 0))) ∧
    ((∀ tr m c, (eng tr m c).inst = none) →
      opResult jvm eng (Op.getInstance svc database user password) w = JValue.long 0) ∧
    (∀ h : Nat, (∀ tr m c, (eng tr m c).inst = some h) →
      opResult jvm eng (Op.getInstance svc database user password) w =
        JValue.long (toJlong h) ∧
      (h < 2 ^ 63 →
        opResult jvm eng (Op.getInstance svc database user password) w = JValue.long h)) ∧
    (∀ (err : List Event → Mem → NativeCall → reindexer_error),
      opResult jvm (fun tr m c => { eng tr m c with err := err tr m c })
          (Op.getInstance svc database user password) w =
        opResult jvm eng (Op.getInstance svc database user password) w) := by
  refine ⟨?_, ?_, ?_, ?_⟩
  · simp [opTrace, opResult, dispatch, StateT.run, Functor.map, StateT.map, bind, StateT.bind,
      Java_ru_rt_restream_reindexer_binding_builtin_BuiltinAdapter_init,
      Java_ru_rt_restream_reindexer_binding_builtin_BuiltinAdapter_destroy,
      Java_ru_rt_restream_reindexer_binding_builtin_BuiltinAdapter_connect,
      Java_ru_rt_restream_reindexer_binding_builtin_BuiltinAdapter_openNamespace,
      Java_ru_rt_restream_reindexer_binding_builtin_BuiltinAdapter_closeNamespace,
      Java_ru_rt_restream_reindexer_binding_builtin_BuiltinAdapter_dropNamespace,
      Java_ru_rt_restream_reindexer_binding_builtin_BuiltinAdapter_addIndex,
      Java_ru_rt_restream_reindexer_binding_builtin_BuiltinAdapter_modifyItem,
      Java_ru_rt_restream_reindexer_binding_builtin_BuiltinAdapter_modifyItemTx,
      Java_ru_rt_restream_reindexer_binding_builtin_BuiltinAdapter_beginTx,
      Java_ru_rt_restream_reindexer_binding_builtin_BuiltinAdapter_commitTx,
      Java_ru_rt_restream_reindexer_binding_builtin_BuiltinAdapter_rollbackTx,
      Java_ru_rt_restream_reindexer_binding_builtin_BuiltinAdapter_selectQuery,
      Java_ru_rt_restream_reindexer_binding_builtin_BuiltinAdapter_deleteQuery,
      Java_ru_rt_restream_reindexer_binding_builtin_BuiltinAdapter_deleteQueryTx,
      Java_ru_rt_restream_reindexer_binding_builtin_BuiltinAdapter_updateQuery,
      Java_ru_rt_restream_reindexer_binding_builtin_BuiltinAdapter_updateQueryTx,
      Java_ru_rt_restream_reindexer_util_NativeUtils_getBytes,
      Java_ru_rt_restream_reindexer_util_NativeUtils_freeNativeBuffer,
      Java_ru_rt_restream_reindexer_binding_builtin_BuiltinAdapter_initServer,
      Java_ru_rt_restream_reindexer_binding_builtin_BuiltinAdapter_destroyServer,
      Java_ru_rt_restream_reindexer_binding_builtin_BuiltinAdapter_startServer,
      Java_ru_rt_restream_reindexer_binding_builtin_BuiltinAdapter_stopServer,
      Java_ru_rt_restream_reindexer_binding_builtin_BuiltinAdapter_isServerReady,
      Java_ru_rt_restream_reindexer_binding_builtin_BuiltinAdapter_getInstance,
      Java_ru_rt_restream_reindexer_binding_builtin_BuiltinAdapter_putMeta,
      Java_ru_rt_restream_reindexer_binding_builtin_BuiltinAdapter_getMeta,
      rx_string, rx_buffer, GetStringUTFChars, GetByteArrayElements, GetLongArrayElements, borrow,
      callNative, ReleaseStringUTFChars, ReleaseByteArrayElements, ReleaseLongArrayElements, emit,
      j_res_call, returnShape, j_res_errorM, j_res_retM, j_res_txM, get, getThe,
      MonadStateOf.get, StateT.get, set, StateT.set, pure, StateT.pure, modify, modifyGet,
      MonadStateOf.modifyGet, StateT.modifyGet, MonadState.get, MonadStateOf.set, nativeEventsOf]
    exact ⟨_, _, _, _, ⟨⟨rfl, rfl, rfl⟩, rfl⟩, rfl⟩
  · intro h
    simp [opTrace, opResult, dispatch, StateT.run, Functor.map, StateT.map, bind, StateT.bind,
      Java_ru_rt_restream_reindexer_binding_builtin_BuiltinAdapter_init,
      Java_ru_rt_restream_reindexer_binding_builtin_BuiltinAdapter_destroy,
      Java_ru_rt_restream_reindexer_binding_builtin_BuiltinAdapter_connect,
      Java_ru_rt_restream_reindexer_binding_builtin_BuiltinAdapter_openNamespace,
      Java_ru_rt_restream_reindexer_binding_builtin_BuiltinAdapter_closeNamespace,
      Java_ru_rt_restream_reindexer_binding_builtin_BuiltinAdapter_dropNamespace,
      Java_ru_rt_restream_reindexer_binding_builtin_BuiltinAdapter_addIndex,
      Java_ru_rt_restream_reindexer_binding_builtin_BuiltinAdapter_modifyItem,
      Java_ru_rt_restream_reindexer_binding_builtin_BuiltinAdapter_modifyItemTx,
      Java_ru_rt_restream_reindexer_binding_builtin_BuiltinAdapter_beginTx,
      Java_ru_rt_restream_reindexer_binding_builtin_BuiltinAdapter_commitTx,
      Java_ru_rt_restream_reindexer_binding_builtin_BuiltinAdapter_rollbackTx,
      Java_ru_rt_restream_reindexer_binding_builtin_BuiltinAdapter_selectQuery,
      Java_ru_rt_restream_reindexer_binding_builtin_BuiltinAdapter_deleteQuery,
      Java_ru_rt_restream_reindexer_binding_builtin_BuiltinAdapter_deleteQueryTx,
      Java_ru_rt_restream_reindexer_binding_builtin_BuiltinAdapter_updateQuery,
      Java_ru_rt_restream_reindexer_binding_builtin_BuiltinAdapter_updateQueryTx,
      Java_ru_rt_restream_reindexer_util_NativeUtils_getBytes,
      Java_ru_rt_restream_reindexer_util_NativeUtils_freeNativeBuffer,
      Java_ru_rt_restream_reindexer_binding_builtin_BuiltinAdapter_initServer,
      Java_ru_rt_restream_reindexer_binding_builtin_BuiltinAdapter_destroyServer,
      Java_ru_rt_restream_reindexer_binding_builtin_BuiltinAdapter_startServer,
      Java_ru_rt_restream_reindexer_binding_builtin_BuiltinAdapter_stopServer,
      Java_ru_rt_restream_reindexer_binding_builtin_BuiltinAdapter_isServerReady,
      Java_ru_rt_restream_reindexer_binding_builtin_BuiltinAdapter_getInstance,
      Java_ru_rt_restream_reindexer_binding_builtin_BuiltinAdapter_putMeta,
      Java_ru_rt_restream_reindexer_binding_builtin_BuiltinAdapter_getMeta,
      rx_string, rx_buffer, GetStringUTFChars, GetByteArrayElements, GetLongArrayElements, borrow,
      callNative, ReleaseStringUTFChars, ReleaseByteArrayElements, ReleaseLongArrayElements, emit,
      j_res_call, returnShape, j_res_errorM, j_res_retM, j_res_txM, get, getThe,
      MonadStateOf.get, StateT.get, set, StateT.set, pure, StateT.pure, modify, modifyGet,
      MonadStateOf.modifyGet, StateT.modifyGet, MonadState.get, MonadStateOf.set, h, toJlong]
  · intro h hh
    have e : opResult jvm eng (Op.getInstance svc database user password) w =
        JValue.long (toJlong h) := by
      simp [opTrace, opResult, dispatch, StateT.run, Functor.map, StateT.map, bind, StateT.bind,
      Java_ru_rt_restream_reindexer_binding_builtin_BuiltinAdapter_init,
      Java_ru_rt_restream_reindexer_binding_builtin_BuiltinAdapter_destroy,
      Java_ru_rt_restream_reindexer_binding_builtin_BuiltinAdapter_connect,
      Java_ru_rt_restream_reindexer_binding_builtin_BuiltinAdapter_openNamespace,
      Java_ru_rt_restream_reindexer_binding_builtin_BuiltinAdapter_closeNamespace,
      Java_ru_rt_restream_reindexer_binding_builtin_BuiltinAdapter_dropNamespace,
      Java_ru_rt_restream_reindexer_binding_builtin_BuiltinAdapter_addIndex,
      Java_ru_rt_restream_reindexer_binding_builtin_BuiltinAdapter_modifyItem,
      Java_ru_rt_restream_reindexer_binding_builtin_BuiltinAdapter_modifyItemTx,
      Java_ru_rt_restream_reindexer_binding_builtin_BuiltinAdapter_beginTx,
      Java_ru_rt_restream_reindexer_binding_builtin_BuiltinAdapter_commitTx,
      Java_ru_rt_restream_reindexer_binding_builtin_BuiltinAdapter_rollbackTx,
      Java_ru_rt_restream_reindexer_binding_builtin_BuiltinAdapter_selectQuery,
      Java_ru_rt_restream_reindexer_binding_builtin_BuiltinAdapter_deleteQuery,
      Java_ru_rt_restream_reindexer_binding_builtin_BuiltinAdapter_deleteQueryTx,
      Java_ru_rt_restream_reindexer_binding_builtin_BuiltinAdapter_updateQuery,
      Java_ru_rt_restream_reindexer_binding_builtin_BuiltinAdapter_updateQueryTx,
      Java_ru_rt_restream_reindexer_util_NativeUtils_getBytes,
      Java_ru_rt_restream_reindexer_util_NativeUtils_freeNativeBuffer,
      Java_ru_rt_restream_reindexer_binding_builtin_BuiltinAdapter_initServer,
      Java_ru_rt_restream_reindexer_binding_builtin_BuiltinAdapter_destroyServer,
      Java_ru_rt_restream_reindexer_binding_builtin_BuiltinAdapter_startServer,
      Java_ru_rt_restream_reindexer_binding_builtin_BuiltinAdapter_stopServer,
      Java_ru_rt_restream_reindexer_binding_builtin_BuiltinAdapter_isServerReady,
      Java_ru_rt_restream_reindexer_binding_builtin_BuiltinAdapter_getInstance,
      Java_ru_rt_restream_reindexer_binding_builtin_BuiltinAdapter_putMeta,
      Java_ru_rt_restream_reindexer_binding_builtin_BuiltinAdapter_getMeta,
      rx_string, rx_buffer, GetStringUTFChars, GetByteArrayElements, GetLongArrayElements, borrow,
      callNative, ReleaseStringUTFChars, ReleaseByteArrayElements, ReleaseLongArrayElements, emit,
      j_res_call, returnShape, j_res_errorM, j_res_retM, j_res_txM, get, getThe,
      MonadStateOf.get, StateT.get, set, StateT.set, pure, StateT.pure, modify, modifyGet,
      MonadStateOf.modifyGet, StateT.modifyGet, MonadState.get, MonadStateOf.set, hh]
    refine ⟨e, fun hlt => ?_⟩
    rw [e, toJlong_of_lt h hlt]
  · intro err
    simp [opTrace, opResult, dispatch, StateT.run, Functor.map, StateT.map, bind, StateT.bind,
      Java_ru_rt_restream_reindexer_binding_builtin_BuiltinAdapter_init,
      Java_ru_rt_restream_reindexer_binding_builtin_BuiltinAdapter_destroy,
      Java_ru_rt_restream_reindexer_binding_builtin_BuiltinAdapter_connect,
      Java_ru_rt_restream_reindexer_binding_builtin_BuiltinAdapter_openNamespace,
      Java_ru_rt_restream_reindexer_binding_builtin_BuiltinAdapter_closeNamespace,
      Java_ru_rt_restream_reindexer_binding_builtin_BuiltinAdapter_dropNamespace,
      Java_ru_rt_restream_reindexer_binding_builtin_BuiltinAdapter_addIndex,
      Java_ru_rt_restream_reindexer_binding_builtin_BuiltinAdapter_modifyItem,
      Java_ru_rt_restream_reindexer_binding_builtin_BuiltinAdapter_modifyItemTx,
      Java_ru_rt_restream_reindexer_binding_builtin_BuiltinAdapter_beginTx,
      Java_ru_rt_restream_reindexer_binding_builtin_BuiltinAdapter_commitTx,
      Java_ru_rt_restream_reindexer_binding_builtin_BuiltinAdapter_rollbackTx,
      Java_ru_rt_restream_reindexer_binding_builtin_BuiltinAdapter_selectQuery,
      Java_ru_rt_restream_reindexer_binding_builtin_BuiltinAdapter_deleteQuery,
      Java_ru_rt_restream_reindexer_binding_builtin_BuiltinAdapter_deleteQueryTx,
      Java_ru_rt_restream_reindexer_binding_builtin_BuiltinAdapter_updateQuery,
      Java_ru_rt_restream_reindexer_binding_builtin_BuiltinAdapter_updateQueryTx,
      Java_ru_rt_restream_reindexer_util_NativeUtils_getBytes,
      Java_ru_rt_restream_reindexer_util_NativeUtils_freeNativeBuffer,
      Java_ru_rt_restream_reindexer_binding_builtin_BuiltinAdapter_initServer,
      Java_ru_rt_restream_reindexer_binding_builtin_BuiltinAdapter_destroyServer,
      Java_ru_rt_restream_reindexer_binding_builtin_BuiltinAdapter_startServer,
      Java_ru_rt_restream_reindexer_binding_builtin_BuiltinAdapter_stopServer,
      Java_ru_rt_restream_reindexer_binding_builtin_BuiltinAdapter_isServerReady,
      Java_ru_rt_restream_reindexer_binding_builtin_BuiltinAdapter_getInstance,
      Java_ru_rt_restream_reindexer_binding_builtin_BuiltinAdapter_putMeta,
      Java_ru_rt_restream_reindexer_binding_builtin_BuiltinAdapter_getMeta,
      rx_string, rx_buffer, GetStringUTFChars, GetByteArrayElements, GetLongArrayElements, borrow,
      callNative, ReleaseStringUTFChars, ReleaseByteArrayElements, ReleaseLongArrayElements, emit,
      j_res_call, returnShape, j_res_errorM, j_res_retM, j_res_txM, get, getThe,
      MonadStateOf.get, StateT.get, set, StateT.set, pure, StateT.pure, modify, modifyGet,
      MonadStateOf.modifyGet, StateT.modifyGet, MonadState.get, MonadStateOf.set]

theorem getInstance_returns_stored_witness :
    opResult jvmLE engOk (Op.getInstance 9 ⟨5, [100]⟩ ⟨6, [117]⟩ ⟨7, [112]⟩) world0 =
      JValue.long 1 ∧
    opResult jvmLE engFail (Op.getInstance 9 ⟨5, [100]⟩ ⟨6, [117]⟩ ⟨7, [112]⟩) world0 =
      JValue.long 0 :=
  ⟨((getInstance_returns_stored jvmLE engOk world0 9 ⟨5, [100]⟩ ⟨6, [117]⟩ ⟨7, [112]⟩).2.2.1 1
      (fun _ _ _ => rfl)).2 (by decide),
   (getInstance_returns_stored jvmLE engFail world0 9 ⟨5, [100]⟩ ⟨6, [117]⟩ ⟨7, [112]⟩).2.1
      (fun _ _ _ => rfl)⟩

/-- C18 as stated fails: when the native call stores the handle `2^63`, `getInstance` returns
`-2^63`. -/
theorem getInstance_high_handle_counterexample :
    (engHigh [] memErr
      (NativeCall.get_reindexer_instance 9 ⟨4096, 1⟩ ⟨4352, 1⟩ ⟨4608, 1⟩)).inst =
      some (2 ^ 63) ∧
    nativesOf (opTrace jvmLE engHigh (Op.getInstance 9 ⟨5, [100]⟩ ⟨6, [117]⟩ ⟨7, [112]⟩)
        world0) =
      [NativeCall.get_reindexer_instance 9 ⟨4096, 1⟩ ⟨4352, 1⟩ ⟨4608, 1⟩] ∧
    opResult jvmLE engHigh (Op.getInstance 9 ⟨5, [100]⟩ ⟨6, [117]⟩ ⟨7, [112]⟩) world0 =
      JValue.long (-9223372036854775808) ∧
    opResult jvmLE engHigh (Op.getInstance 9 ⟨5, [100]⟩ ⟨6, [117]⟩ ⟨7, [112]⟩) world0 ≠
      JValue.long ((2 ^ 63 : Nat) : Int) := by
  decide

end BuiltinAdapter
